import Mathlib

/-!
PR-Reviewer: reviewer assignment service.

A shallow embedding of `reviewer/internal/core` (models.go, errors.go, ports.go,
service.go) and of `reviewer/internal/adapters/rest` (dto.go, mappers.go,
errors.go, http.go), together with an in-memory reading of the SQL adapters in
`reviewer/internal/adapters/db`.

Conventions of the embedding:

* a Go `error` is an `Option Err` (`none` is `nil`); a Go pointer result is an
  `Option` (`none` is the `nil` pointer), and so is a slice that the code
  compares with `nil`;
* a Go `int` is an `Int` kept in the 64-bit two's complement range: an addition
  wraps around (`addInt`);
* the three store interfaces of ports.go are one record `Stores σ` of functions
  over an arbitrary store state `σ`; look-ups read the state, `Create` and
  `Update` return the next state;
* a value returned by a store is a fresh copy, as the SQL adapters build it:
  writing to a returned pull request changes no store state before `Update`;
* every service operation returns a `Run`: its Go result, the store state it
  leaves behind and the list of store calls it made, in order;
* dereferencing a `nil` pointer that a store returned together with a `nil`
  error is the outcome `Outcome.panic`;
* the process-wide random source of `math/rand` is a function `rnd : Nat → Nat`:
  the `k`-th call `rand.Intn(n)` of an operation returns `rnd k % n`.
* a handler takes the decoded request (or the text of the decoding error) and
  returns the response it writes, a status code and a JSON body, with the store
  state it leaves behind.
-/

namespace PRReviewer

/-! ## errors.go -/

/-- Go error values: the six sentinel errors of errors.go, any other error
(`storage`), and an error wrapping another one (`fmt.Errorf` with `%w`). -/
inductive Err where
  | TeamExists
  | PRExists
  | PRMerged
  | NotAssigned
  | NoCandidate
  | NotFound
  | storage (msg : String)
  | wrap (msg : String) (inner : Err)
  deriving DecidableEq, Repr

/-- Go `errors.Is(err, target)`: `err` or an error in its chain is `target`. -/
def errorsIs : Err → Err → Bool
  | .wrap msg inner, target => decide (Err.wrap msg inner = target) || errorsIs inner target
  | e, target => decide (e = target)

/-! ## models.go -/

/-- Go `type PullRequestStatus string`. -/
abbrev PullRequestStatus := String

def PullRequestStatusOpen : PullRequestStatus := "OPEN"

def PullRequestStatusMerged : PullRequestStatus := "MERGED"

structure User where
  ID : String
  Username : String
  TeamName : String
  IsActive : Bool
  deriving DecidableEq, Repr

def User.CanBeReviewer (u : User) : Bool :=
  u.IsActive

structure Team where
  Name : String
  Members : List User
  deriving DecidableEq, Repr

structure PullRequest where
  ID : String
  Name : String
  Status : PullRequestStatus
  AuthorID : String
  ReviewersIDs : List String
  deriving DecidableEq, Repr

def PullRequest.CanReassign (pr : PullRequest) : Bool :=
  pr.Status == PullRequestStatusOpen

def PullRequest.IsMerged (pr : PullRequest) : Bool :=
  pr.Status == PullRequestStatusMerged

def PullRequest.HasReviewer (pr : PullRequest) (userID : String) : Bool :=
  pr.ReviewersIDs.any (fun reviewerID => reviewerID == userID)

/-! ## ports.go -/

/-- The store interfaces `TeamStore`, `UserStore` and `PRStore` over a store
state `σ`. A look-up returns the Go pair (value, error). -/
structure Stores (σ : Type) where
  teamCreate : σ → Team → Option Err × σ
  teamGetByName : σ → String → Option Team × Option Err
  userGetByID : σ → String → Option User × Option Err
  userUpdate : σ → User → Option Err × σ
  userGetActiveByTeamName : σ → String → List User × Option Err
  prCreate : σ → PullRequest → Option Err × σ
  prGetByID : σ → String → Option PullRequest × Option Err
  prUpdate : σ → PullRequest → Option Err × σ
  prGetByReviewerID : σ → String → Option (List PullRequest) × Option Err
  prGetStatistics : σ → List (String × Int) × Option Err

/-- One call of a store method, with its argument. -/
inductive Call where
  | teamCreate (team : Team)
  | teamGetByName (name : String)
  | userGetByID (id : String)
  | userUpdate (user : User)
  | userGetActiveByTeamName (teamName : String)
  | prCreate (pr : PullRequest)
  | prGetByID (id : String)
  | prUpdate (pr : PullRequest)
  | prGetByReviewerID (userID : String)
  | prGetStatistics
  deriving DecidableEq, Repr

def Call.isPRCreate : Call → Bool
  | .prCreate _ => true
  | _ => false

def Call.isPRUpdate : Call → Bool
  | .prUpdate _ => true
  | _ => false

/-- How a service operation ends: a value with a `nil` error, a non-`nil`
error, or a run-time panic. -/
inductive Outcome (α : Type) where
  | ok (value : α)
  | fail (err : Err)
  | panic
  deriving DecidableEq, Repr

/-- The observable behaviour of one service call. -/
structure Run (σ α : Type) where
  result : Outcome α
  state : σ
  calls : List Call

/-! ## service.go -/

/-- The callback `shuffled[i], shuffled[j] = shuffled[j], shuffled[i]`. -/
def swapAt {α : Type} (xs : List α) (i j : Nat) : List α :=
  match xs[i]?, xs[j]? with
  | some a, some b => (xs.set i b).set j a
  | _, _ => xs

/-- The loop of `rand.Shuffle(n, swap)`: for `i = n-1` down to `1`, draw
`j = rand.Intn(i+1)` and call `swap(i, j)`; `k` counts the draws made so far. -/
def shuffleLoop {α : Type} (rnd : Nat → Nat) : Nat → Nat → List α → List α
  | 0, _, xs => xs
  | i + 1, k, xs => shuffleLoop rnd i (k + 1) (swapAt xs (i + 1) (rnd k % (i + 2)))

def randShuffle {α : Type} (rnd : Nat → Nat) (xs : List α) : List α :=
  shuffleLoop rnd (xs.length - 1) 0 xs

def selectRandomReviewers (rnd : Nat → Nat) (candidates : List User) (maxCount : Nat) :
    List String :=
  if candidates.length = 0 then []
  else
    let count := if candidates.length < maxCount then candidates.length else maxCount
    let shuffled := randShuffle rnd candidates
    (shuffled.take count).map (fun u => u.ID)

/-- The candidate filter of `CreatePR` (service.go lines 74-80). -/
def createCandidates (candidates : List User) (authorID : String) : List User :=
  candidates.filter (fun candidate => candidate.ID != authorID && candidate.CanBeReviewer)

def CreatePR {σ : Type} (S : Stores σ) (rnd : Nat → Nat) (st : σ)
    (prID name authorID : String) : Run σ PullRequest :=
  let c1 := [Call.prGetByID prID]
  match S.prGetByID st prID with
  | (some _, none) => ⟨.fail .PRExists, st, c1⟩
  | (_, err) =>
    match err.filter (fun e => !errorsIs e .NotFound) with
    | some e => ⟨.fail e, st, c1⟩
    | none =>
      let c2 := c1 ++ [Call.userGetByID authorID]
      match S.userGetByID st authorID with
      | (_, some e) => ⟨.fail e, st, c2⟩
      | (none, none) => ⟨.panic, st, c2⟩
      | (some author, none) =>
        let c3 := c2 ++ [Call.userGetActiveByTeamName author.TeamName]
        match S.userGetActiveByTeamName st author.TeamName with
        | (_, some e) => ⟨.fail e, st, c3⟩
        | (candidates, none) =>
          let availableCandidates := createCandidates candidates authorID
          let reviewerIDs := selectRandomReviewers rnd availableCandidates 2
          let pr : PullRequest :=
            { ID := prID, Name := name, Status := PullRequestStatusOpen,
              AuthorID := authorID, ReviewersIDs := reviewerIDs }
          let c4 := c3 ++ [Call.prCreate pr]
          match S.prCreate st pr with
          | (some e, st1) => ⟨.fail e, st1, c4⟩
          | (none, st1) => ⟨.ok pr, st1, c4⟩

def MergePR {σ : Type} (S : Stores σ) (st : σ) (prID : String) : Run σ PullRequest :=
  let c1 := [Call.prGetByID prID]
  match S.prGetByID st prID with
  | (_, some e) => ⟨.fail e, st, c1⟩
  | (none, none) => ⟨.panic, st, c1⟩
  | (some pr, none) =>
    if pr.IsMerged then ⟨.ok pr, st, c1⟩
    else
      let pr1 : PullRequest := { pr with Status := PullRequestStatusMerged }
      let c2 := c1 ++ [Call.prUpdate pr1]
      match S.prUpdate st pr1 with
      | (some e, st1) => ⟨.fail e, st1, c2⟩
      | (none, st1) => ⟨.ok pr1, st1, c2⟩

/-- The loop of service.go lines 159-164: overwrite the first slot holding
`oldReviewerID`, then `break`. -/
def replaceFirst (oldReviewerID newID : String) : List String → List String
  | [] => []
  | reviewerID :: rest =>
    if reviewerID == oldReviewerID then newID :: rest
    else reviewerID :: replaceFirst oldReviewerID newID rest

/-- The candidate filter of `ReassignReviewer` (service.go lines 141-151);
`assignedMap[id]` is membership of `id` in the reviewer list. -/
def reassignCandidates (candidates : List User) (pr : PullRequest) (oldReviewerID : String) :
    List User :=
  candidates.filter (fun candidate =>
    candidate.ID != oldReviewerID && !pr.ReviewersIDs.contains candidate.ID
      && candidate.CanBeReviewer)

def ReassignReviewer {σ : Type} (S : Stores σ) (rnd : Nat → Nat) (st : σ)
    (prID oldReviewerID : String) : Run σ (PullRequest × String) :=
  let c1 := [Call.prGetByID prID]
  match S.prGetByID st prID with
  | (_, some e) => ⟨.fail e, st, c1⟩
  | (none, none) => ⟨.panic, st, c1⟩
  | (some pr, none) =>
    if !pr.CanReassign then ⟨.fail .PRMerged, st, c1⟩
    else if !pr.HasReviewer oldReviewerID then ⟨.fail .NotAssigned, st, c1⟩
    else
      let c2 := c1 ++ [Call.userGetByID oldReviewerID]
      match S.userGetByID st oldReviewerID with
      | (_, some _) => ⟨.fail .NotFound, st, c2⟩
      | (none, none) => ⟨.panic, st, c2⟩
      | (some oldReviewer, none) =>
        let c3 := c2 ++ [Call.userGetActiveByTeamName oldReviewer.TeamName]
        match S.userGetActiveByTeamName st oldReviewer.TeamName with
        | (_, some e) => ⟨.fail e, st, c3⟩
        | (candidates, none) =>
          let availableCandidates := reassignCandidates candidates pr oldReviewerID
          if availableCandidates.length = 0 then ⟨.fail .NoCandidate, st, c3⟩
          else
            match availableCandidates[rnd 0 % availableCandidates.length]? with
            | none => ⟨.panic, st, c3⟩
            | some newReviewer =>
              let pr1 : PullRequest :=
                { pr with ReviewersIDs := replaceFirst oldReviewerID newReviewer.ID pr.ReviewersIDs }
              let c4 := c3 ++ [Call.prUpdate pr1]
              match S.prUpdate st pr1 with
              | (some e, st1) => ⟨.fail e, st1, c4⟩
              | (none, st1) => ⟨.ok (pr1, newReviewer.ID), st1, c4⟩

def Call.isTeamCreate : Call → Bool
  | .teamCreate _ => true
  | _ => false

def Call.isUserUpdate : Call → Bool
  | .userUpdate _ => true
  | _ => false

/-- A call of the user store (`GetByID`, `Update` or `GetActiveByTeamName`). -/
def Call.isUserStore : Call → Bool
  | .userGetByID _ => true
  | .userUpdate _ => true
  | .userGetActiveByTeamName _ => true
  | _ => false

def CreateTeam {σ : Type} (S : Stores σ) (st : σ) (name : String) (members : List User) :
    Run σ Unit :=
  let c1 := [Call.teamGetByName name]
  match S.teamGetByName st name with
  | (some _, none) => ⟨.fail .TeamExists, st, c1⟩
  | _ =>
    let team : Team := { Name := name, Members := members }
    let c2 := c1 ++ [Call.teamCreate team]
    match S.teamCreate st team with
    | (some e, st1) => ⟨.fail e, st1, c2⟩
    | (none, st1) => ⟨.ok (), st1, c2⟩

/-- The result is the pointer the store returned, which may be `nil`. -/
def GetTeam {σ : Type} (S : Stores σ) (st : σ) (name : String) : Run σ (Option Team) :=
  let c1 := [Call.teamGetByName name]
  match S.teamGetByName st name with
  | (_, some e) => ⟨.fail e, st, c1⟩
  | (team, none) => ⟨.ok team, st, c1⟩

def SetUserActive {σ : Type} (S : Stores σ) (st : σ) (userID : String) (isActive : Bool) :
    Run σ User :=
  let c1 := [Call.userGetByID userID]
  match S.userGetByID st userID with
  | (_, some e) => ⟨.fail e, st, c1⟩
  | (none, none) => ⟨.panic, st, c1⟩
  | (some user, none) =>
    let user1 : User := { user with IsActive := isActive }
    let c2 := c1 ++ [Call.userUpdate user1]
    match S.userUpdate st user1 with
    | (some e, st1) => ⟨.fail e, st1, c2⟩
    | (none, st1) => ⟨.ok user1, st1, c2⟩

def GetUserReviews {σ : Type} (S : Stores σ) (st : σ) (userID : String) :
    Run σ (Option (List PullRequest)) :=
  let c1 := [Call.userGetByID userID]
  match S.userGetByID st userID with
  | (_, some e) => ⟨.fail e, st, c1⟩
  | (_, none) =>
    let c2 := c1 ++ [Call.prGetByReviewerID userID]
    match S.prGetByReviewerID st userID with
    | (_, some e) => ⟨.fail e, st, c2⟩
    | (prs, none) => ⟨.ok prs, st, c2⟩

def GetStatistics {σ : Type} (S : Stores σ) (st : σ) : Run σ (List (String × Int)) :=
  let c1 := [Call.prGetStatistics]
  match S.prGetStatistics st with
  | (_, some e) => ⟨.fail e, st, c1⟩
  | (stats, none) => ⟨.ok stats, st, c1⟩

/-! ## adapters/rest/mappers.go -/

/-- The `switch` of `mapErrorToCode`, for a non-`nil` error: the cases are tried
in order, each with `errors.Is`. -/
def mapErrorToCode (err : Err) : String × Bool :=
  if errorsIs err .TeamExists then ("TEAM_EXISTS", true)
  else if errorsIs err .PRExists then ("PR_EXISTS", true)
  else if errorsIs err .PRMerged then ("PR_MERGED", true)
  else if errorsIs err .NotAssigned then ("NOT_ASSIGNED", true)
  else if errorsIs err .NoCandidate then ("NO_CANDIDATE", true)
  else if errorsIs err .NotFound then ("NOT_FOUND", true)
  else ("", false)

/-- Go `err.Error()` for the errors of the service: the texts of errors.go; a
storage or wrapping error carries its whole text. -/
def Err.Error : Err → String
  | .TeamExists => "team already exists"
  | .PRExists => "PR already exists"
  | .PRMerged => "cannot modify merged PR"
  | .NotAssigned => "reviewer is not assigned"
  | .NoCandidate => "no active candidate available"
  | .NotFound => "resource not found"
  | .storage msg => msg
  | .wrap msg _ => msg

/-- The errors of mappers.go: the sentinels, the error of `prsToShortDTOs` for a
`nil` slice, and `fmt.Errorf` with `%w` (the whole text and the wrapped error). -/
inductive MapperErr where
  | InvalidTeam
  | InvalidTeamDTO
  | InvalidUser
  | InvalidUserDTO
  | InvalidPR
  | InvalidStatus
  | InvalidMemberDTO
  | nilPRs
  | wrap (msg : String) (inner : MapperErr)
  deriving DecidableEq, Repr

def MapperErr.Error : MapperErr → String
  | .InvalidTeam => "invalid team: team is nil or name is empty"
  | .InvalidTeamDTO => "invalid team DTO: team_name is required"
  | .InvalidUser => "invalid user: user is nil or required fields are empty"
  | .InvalidUserDTO => "invalid user DTO: user_id and username are required"
  | .InvalidPR => "invalid pull request: PR is nil or required fields are empty"
  | .InvalidStatus => "invalid status: must be OPEN or MERGED"
  | .InvalidMemberDTO => "invalid team member: user_id and username are required"
  | .nilPRs => "prs slice is nil"
  | .wrap msg _ => msg

/-! ## adapters/rest/dto.go -/

structure TeamMemberDTO where
  UserID : String
  Username : String
  IsActive : Bool
  deriving DecidableEq, Repr

structure TeamDTO where
  TeamName : String
  Members : List TeamMemberDTO
  deriving DecidableEq, Repr

structure UserDTO where
  UserID : String
  Username : String
  TeamName : String
  IsActive : Bool
  deriving DecidableEq, Repr

structure PullRequestDTO where
  PullRequestID : String
  PullRequestName : String
  AuthorID : String
  Status : String
  AssignedReviewers : List String
  CreatedAt : Option String
  MergedAt : Option String
  deriving DecidableEq, Repr

structure PullRequestShortDTO where
  PullRequestID : String
  PullRequestName : String
  AuthorID : String
  Status : String
  deriving DecidableEq, Repr

structure SetUserActiveDTO where
  UserID : String
  IsActive : Bool
  deriving DecidableEq, Repr

structure CreatePRDTO where
  PullRequestID : String
  PullRequestName : String
  AuthorID : String
  deriving DecidableEq, Repr

structure MergePRDTO where
  PullRequestID : String
  deriving DecidableEq, Repr

structure ReassignReviewerDTO where
  PullRequestID : String
  OldUserID : String
  deriving DecidableEq, Repr

structure ReassignReviewerResponseDTO where
  PR : PullRequestDTO
  ReplacedBy : String
  deriving DecidableEq, Repr

structure GetUserReviewsResponseDTO where
  UserID : String
  PullRequests : List PullRequestShortDTO
  deriving DecidableEq, Repr

structure UserStatisticDTO where
  UserID : String
  AssignmentsCount : Int
  deriving DecidableEq, Repr

structure StatisticsResponseDTO where
  ByUsers : List UserStatisticDTO
  TotalAssignments : Int
  deriving DecidableEq, Repr

/-! ## adapters/rest/mappers.go, the converters -/

def teamToDTO (team : Option Team) : Except MapperErr TeamDTO :=
  match team with
  | none => .error .InvalidTeam
  | some team =>
    if team.Name == "" then
      .error (.wrap (MapperErr.InvalidTeam.Error ++ ": team name is empty") .InvalidTeam)
    else
      .ok { TeamName := team.Name,
            Members := team.Members.map (fun member =>
              { UserID := member.ID, Username := member.Username,
                IsActive := member.IsActive }) }

/-- The loop of `teamFromDTO` from index `i` on: the first member with an empty
`user_id` or `username` ends it with an error that names the index. -/
def membersFromDTO (teamName : String) : Nat → List TeamMemberDTO → Except MapperErr (List User)
  | _, [] => .ok []
  | i, member :: rest =>
    if member.UserID == "" || member.Username == "" then
      .error (.wrap (MapperErr.InvalidMemberDTO.Error ++ ": member at index " ++ toString i)
        .InvalidMemberDTO)
    else
      match membersFromDTO teamName (i + 1) rest with
      | .error e => .error e
      | .ok members =>
        .ok ({ ID := member.UserID, Username := member.Username, TeamName := teamName,
               IsActive := member.IsActive } :: members)

def teamFromDTO (dto : TeamDTO) : Except MapperErr Team :=
  if dto.TeamName == "" then .error .InvalidTeamDTO
  else
    match membersFromDTO dto.TeamName 0 dto.Members with
    | .error e => .error e
    | .ok members => .ok { Name := dto.TeamName, Members := members }

def userToDTO (user : Option User) : Except MapperErr UserDTO :=
  match user with
  | none => .error .InvalidUser
  | some user =>
    if user.ID == "" || user.Username == "" then
      .error (.wrap (MapperErr.InvalidUser.Error ++ ": user_id and username are required")
        .InvalidUser)
    else
      .ok { UserID := user.ID, Username := user.Username, TeamName := user.TeamName,
            IsActive := user.IsActive }

def prToDTO (pr : Option PullRequest) : Except MapperErr PullRequestDTO :=
  match pr with
  | none => .error .InvalidPR
  | some pr =>
    if pr.ID == "" || pr.Name == "" || pr.AuthorID == "" then
      .error (.wrap (MapperErr.InvalidPR.Error
        ++ ": pull_request_id, pull_request_name and author_id are required") .InvalidPR)
    else if pr.Status != PullRequestStatusOpen && pr.Status != PullRequestStatusMerged then
      .error .InvalidStatus
    else
      .ok { PullRequestID := pr.ID, PullRequestName := pr.Name, AuthorID := pr.AuthorID,
            Status := pr.Status, AssignedReviewers := pr.ReviewersIDs,
            CreatedAt := none, MergedAt := none }

def prToShortDTO (pr : Option PullRequest) : Except MapperErr PullRequestShortDTO :=
  match pr with
  | none => .error .InvalidPR
  | some pr =>
    if pr.ID == "" || pr.Name == "" || pr.AuthorID == "" then
      .error (.wrap (MapperErr.InvalidPR.Error
        ++ ": pull_request_id, pull_request_name and author_id are required") .InvalidPR)
    else if pr.Status != PullRequestStatusOpen && pr.Status != PullRequestStatusMerged then
      .error .InvalidStatus
    else
      .ok { PullRequestID := pr.ID, PullRequestName := pr.Name, AuthorID := pr.AuthorID,
            Status := pr.Status }

/-- The loop of `prsToShortDTOs` from index `i` on. -/
def shortDTOsFrom : Nat → List PullRequest → Except MapperErr (List PullRequestShortDTO)
  | _, [] => .ok []
  | i, pr :: rest =>
    match prToShortDTO (some pr) with
    | .error e =>
      .error (.wrap ("failed to convert PR at index " ++ toString i ++ ": " ++ e.Error) e)
    | .ok dto =>
      match shortDTOsFrom (i + 1) rest with
      | .error e => .error e
      | .ok dtos => .ok (dto :: dtos)

def prsToShortDTOs (prs : Option (List PullRequest)) :
    Except MapperErr (List PullRequestShortDTO) :=
  match prs with
  | none => .error .nilPRs
  | some prs => shortDTOsFrom 0 prs

/-- A value of Go `int` after an arithmetic operation: the 64-bit two's
complement representative of `x`. -/
def wrapInt (x : Int) : Int :=
  (x + 9223372036854775808) % 18446744073709551616 - 9223372036854775808

/-- Go `a + b` on `int`. -/
def addInt (a b : Int) : Int :=
  wrapInt (a + b)

/-- The map `stats` is given as the list of its entries in the order in which
`range stats` visits them. -/
def statisticsToDTO (stats : List (String × Int)) : StatisticsResponseDTO :=
  let acc := stats.foldl
    (fun (acc : List UserStatisticDTO × Int) (entry : String × Int) =>
      (acc.1 ++ [{ UserID := entry.1, AssignmentsCount := entry.2 }], addInt acc.2 entry.2))
    ([], 0)
  { ByUsers := acc.1, TotalAssignments := acc.2 }

/-! ## adapters/rest/errors.go and http.go -/

/-- What a handler writes as the JSON body. -/
inductive Payload where
  | error (code message : String)
  | team (team : TeamDTO)
  | teamOnly (team : TeamDTO)
  | user (user : UserDTO)
  | pr (pr : PullRequestDTO)
  | reassigned (response : ReassignReviewerResponseDTO)
  | reviews (response : GetUserReviewsResponseDTO)
  | statistics (response : StatisticsResponseDTO)
  deriving DecidableEq, Repr

structure Response where
  status : Nat
  body : Payload
  deriving DecidableEq, Repr

/-- The outcome of serving one request: the response written (`none` when the
service call panicked) and the store state left behind. -/
structure Served (σ : Type) where
  response : Option Response
  state : σ

def StatusOK : Nat := 200

def StatusCreated : Nat := 201

def StatusBadRequest : Nat := 400

def StatusNotFound : Nat := 404

def StatusConflict : Nat := 409

def StatusInternalServerError : Nat := 500

def writeError (code : Nat) (errorCode message : String) : Response :=
  { status := code, body := .error errorCode message }

def writeJSON (code : Nat) (data : Payload) : Response :=
  { status := code, body := data }

/-- The block every handler runs on a service error: a mapped error is answered
with the status `mapped errorCode` and its code, any other with 500. -/
def serviceErrorResponse (mapped : String → Nat) (err : Err) : Response :=
  match mapErrorToCode err with
  | (errorCode, true) => writeError (mapped errorCode) errorCode err.Error
  | (_, false) => writeError StatusInternalServerError "INTERNAL_ERROR" err.Error

/-- The request body is given as the result of `json.Decode`: the decoded value
or the text of the decoding error. -/
def CreateTeamHandler {σ : Type} (S : Stores σ) (st : σ) (body : Except String TeamDTO) :
    Served σ :=
  match body with
  | .error msg => ⟨some (writeError StatusBadRequest "BAD_REQUEST" msg), st⟩
  | .ok teamRequest =>
    match teamFromDTO teamRequest with
    | .error e => ⟨some (writeError StatusBadRequest "BAD_REQUEST" e.Error), st⟩
    | .ok team =>
      let created := CreateTeam S st team.Name team.Members
      match created.result with
      | .panic => ⟨none, created.state⟩
      | .fail err =>
        ⟨some (serviceErrorResponse (fun _ => StatusBadRequest) err), created.state⟩
      | .ok _ =>
        let got := GetTeam S created.state team.Name
        match got.result with
        | .panic => ⟨none, got.state⟩
        | .fail err =>
          ⟨some (writeError StatusInternalServerError "INTERNAL_ERROR" err.Error), got.state⟩
        | .ok createdTeam =>
          match teamToDTO createdTeam with
          | .error e =>
            ⟨some (writeError StatusInternalServerError "INTERNAL_ERROR" e.Error), got.state⟩
          | .ok teamDTO => ⟨some (writeJSON StatusCreated (.team teamDTO)), got.state⟩

def GetTeamHandler {σ : Type} (S : Stores σ) (st : σ) (teamName : String) : Served σ :=
  if teamName == "" then
    ⟨some (writeError StatusBadRequest "BAD_REQUEST" "team_name is required"), st⟩
  else
    let got := GetTeam S st teamName
    match got.result with
    | .panic => ⟨none, got.state⟩
    | .fail err => ⟨some (serviceErrorResponse (fun _ => StatusNotFound) err), got.state⟩
    | .ok team =>
      match teamToDTO team with
      | .error e =>
        ⟨some (writeError StatusInternalServerError "INTERNAL_ERROR" e.Error), got.state⟩
      | .ok teamDTO => ⟨some (writeJSON StatusOK (.teamOnly teamDTO)), got.state⟩

def SetUserActiveHandler {σ : Type} (S : Stores σ) (st : σ)
    (body : Except String SetUserActiveDTO) : Served σ :=
  match body with
  | .error msg => ⟨some (writeError StatusBadRequest "BAD_REQUEST" msg), st⟩
  | .ok req =>
    let set := SetUserActive S st req.UserID req.IsActive
    match set.result with
    | .panic => ⟨none, set.state⟩
    | .fail err => ⟨some (serviceErrorResponse (fun _ => StatusNotFound) err), set.state⟩
    | .ok user =>
      match userToDTO (some user) with
      | .error e =>
        ⟨some (writeError StatusInternalServerError "INTERNAL_ERROR" e.Error), set.state⟩
      | .ok userDTO => ⟨some (writeJSON StatusOK (.user userDTO)), set.state⟩

def CreatePRHandler {σ : Type} (S : Stores σ) (rnd : Nat → Nat) (st : σ)
    (body : Except String CreatePRDTO) : Served σ :=
  match body with
  | .error msg => ⟨some (writeError StatusBadRequest "BAD_REQUEST" msg), st⟩
  | .ok req =>
    let created := CreatePR S rnd st req.PullRequestID req.PullRequestName req.AuthorID
    match created.result with
    | .panic => ⟨none, created.state⟩
    | .fail err =>
      ⟨some (serviceErrorResponse
        (fun errorCode => if errorCode == "PR_EXISTS" then StatusConflict else StatusNotFound)
        err), created.state⟩
    | .ok pr =>
      match prToDTO (some pr) with
      | .error e =>
        ⟨some (writeError StatusInternalServerError "INTERNAL_ERROR" e.Error), created.state⟩
      | .ok prDTO => ⟨some (writeJSON StatusCreated (.pr prDTO)), created.state⟩

def MergePRHandler {σ : Type} (S : Stores σ) (st : σ) (body : Except String MergePRDTO) :
    Served σ :=
  match body with
  | .error msg => ⟨some (writeError StatusBadRequest "BAD_REQUEST" msg), st⟩
  | .ok req =>
    let merged := MergePR S st req.PullRequestID
    match merged.result with
    | .panic => ⟨none, merged.state⟩
    | .fail err => ⟨some (serviceErrorResponse (fun _ => StatusNotFound) err), merged.state⟩
    | .ok pr =>
      match prToDTO (some pr) with
      | .error e =>
        ⟨some (writeError StatusInternalServerError "INTERNAL_ERROR" e.Error), merged.state⟩
      | .ok prDTO => ⟨some (writeJSON StatusOK (.pr prDTO)), merged.state⟩

def ReassignReviewerHandler {σ : Type} (S : Stores σ) (rnd : Nat → Nat) (st : σ)
    (body : Except String ReassignReviewerDTO) : Served σ :=
  match body with
  | .error msg => ⟨some (writeError StatusBadRequest "BAD_REQUEST" msg), st⟩
  | .ok req =>
    let reassigned := ReassignReviewer S rnd st req.PullRequestID req.OldUserID
    match reassigned.result with
    | .panic => ⟨none, reassigned.state⟩
    | .fail err =>
      ⟨some (serviceErrorResponse
        (fun errorCode =>
          if errorCode == "PR_MERGED" || errorCode == "NOT_ASSIGNED"
              || errorCode == "NO_CANDIDATE" then StatusConflict
          else StatusNotFound)
        err), reassigned.state⟩
    | .ok (pr, replacedBy) =>
      match prToDTO (some pr) with
      | .error e =>
        ⟨some (writeError StatusInternalServerError "INTERNAL_ERROR" e.Error),
          reassigned.state⟩
      | .ok prDTO =>
        ⟨some (writeJSON StatusOK (.reassigned { PR := prDTO, ReplacedBy := replacedBy })),
          reassigned.state⟩

def GetUserReviewsHandler {σ : Type} (S : Stores σ) (st : σ) (userID : String) : Served σ :=
  if userID == "" then
    ⟨some (writeError StatusBadRequest "BAD_REQUEST" "user_id is required"), st⟩
  else
    let got := GetUserReviews S st userID
    match got.result with
    | .panic => ⟨none, got.state⟩
    | .fail err => ⟨some (serviceErrorResponse (fun _ => StatusNotFound) err), got.state⟩
    | .ok prs =>
      match prsToShortDTOs prs with
      | .error e =>
        ⟨some (writeError StatusInternalServerError "INTERNAL_ERROR" e.Error), got.state⟩
      | .ok prsDTO =>
        ⟨some (writeJSON StatusOK (.reviews { UserID := userID, PullRequests := prsDTO })),
          got.state⟩

def GetStatisticsHandler {σ : Type} (S : Stores σ) (st : σ) : Served σ :=
  let got := GetStatistics S st
  match got.result with
  | .panic => ⟨none, got.state⟩
  | .fail err =>
    ⟨some (writeError StatusInternalServerError "INTERNAL_ERROR" err.Error), got.state⟩
  | .ok stats => ⟨some (writeJSON StatusOK (.statistics (statisticsToDTO stats))), got.state⟩

/-! ## In-memory stores

The tables of `adapters/db` (teams, users, pull requests with their reviewer
links) as lists, with the SQL statements of team.go, user.go and pr.go read as
list operations. -/

structure MemStore where
  teams : List String
  users : List User
  prs : List PullRequest
  deriving DecidableEq, Repr

/-- The statement `INSERT INTO users ... ON CONFLICT (id) DO UPDATE`. -/
def upsertUser (users : List User) (u : User) : List User :=
  if users.any (fun x => x.ID == u.ID) then
    users.map (fun x => if x.ID == u.ID then u else x)
  else users ++ [u]

def memTeamCreate (st : MemStore) (team : Team) : Option Err × MemStore :=
  (none,
    { st with
      teams := if st.teams.contains team.Name then st.teams else st.teams ++ [team.Name]
      users := team.Members.foldl
        (fun acc m => upsertUser acc { m with TeamName := team.Name }) st.users })

def memTeamGetByName (st : MemStore) (name : String) : Option Team × Option Err :=
  if st.teams.contains name then
    (some { Name := name, Members := st.users.filter (fun u => u.TeamName == name) }, none)
  else (none, some .NotFound)

def memUserGetByID (st : MemStore) (id : String) : Option User × Option Err :=
  match st.users.find? (fun u => u.ID == id) with
  | some u => (some u, none)
  | none => (none, some .NotFound)

def memUserUpdate (st : MemStore) (user : User) : Option Err × MemStore :=
  (none, { st with users := st.users.map (fun x => if x.ID == user.ID then user else x) })

def memUserGetActiveByTeamName (st : MemStore) (teamName : String) : List User × Option Err :=
  (st.users.filter (fun u => u.TeamName == teamName && u.IsActive), none)

def memPRCreate (st : MemStore) (pr : PullRequest) : Option Err × MemStore :=
  if st.prs.any (fun p => p.ID == pr.ID) then
    (some (.storage "duplicate key value violates unique constraint"), st)
  else (none, { st with prs := st.prs ++ [pr] })

def memPRGetByID (st : MemStore) (id : String) : Option PullRequest × Option Err :=
  match st.prs.find? (fun p => p.ID == id) with
  | some p => (some p, none)
  | none => (none, some .NotFound)

/-- The transaction of `PRRepository.Update`: name and status are overwritten
(`author_id` is not part of the `UPDATE`), the reviewer links are replaced. -/
def memPRUpdate (st : MemStore) (pr : PullRequest) : Option Err × MemStore :=
  (none,
    { st with
      prs := st.prs.map (fun p =>
        if p.ID == pr.ID then
          { p with Name := pr.Name, Status := pr.Status, ReviewersIDs := pr.ReviewersIDs }
        else p) })

def memPRGetByReviewerID (st : MemStore) (userID : String) :
    Option (List PullRequest) × Option Err :=
  (some (st.prs.filter (fun p => p.ReviewersIDs.contains userID)), none)

def memPRGetStatistics (st : MemStore) : List (String × Int) × Option Err :=
  let links := st.prs.flatMap (fun p => p.ReviewersIDs)
  (links.dedup.map (fun id => (id, (links.count id : Int))), none)

def memStores : Stores MemStore where
  teamCreate := memTeamCreate
  teamGetByName := memTeamGetByName
  userGetByID := memUserGetByID
  userUpdate := memUserUpdate
  userGetActiveByTeamName := memUserGetActiveByTeamName
  prCreate := memPRCreate
  prGetByID := memPRGetByID
  prUpdate := memPRUpdate
  prGetByReviewerID := memPRGetByReviewerID
  prGetStatistics := memPRGetStatistics

/-! ## Sequences of service calls on the in-memory stores -/

/-- One service call with its arguments; the calls that draw random numbers
carry their random source. -/
inductive Op where
  | createTeam (name : String) (members : List User)
  | getTeam (name : String)
  | setUserActive (userID : String) (isActive : Bool)
  | createPR (rnd : Nat → Nat) (prID name authorID : String)
  | mergePR (prID : String)
  | reassignReviewer (rnd : Nat → Nat) (prID oldReviewerID : String)
  | getUserReviews (userID : String)
  | getStatistics

/-- The store state after one service call on the in-memory stores. -/
def stepOp (st : MemStore) : Op → MemStore
  | .createTeam name members => (CreateTeam memStores st name members).state
  | .getTeam name => (GetTeam memStores st name).state
  | .setUserActive userID isActive => (SetUserActive memStores st userID isActive).state
  | .createPR rnd prID name authorID => (CreatePR memStores rnd st prID name authorID).state
  | .mergePR prID => (MergePR memStores st prID).state
  | .reassignReviewer rnd prID oldReviewerID =>
    (ReassignReviewer memStores rnd st prID oldReviewerID).state
  | .getUserReviews userID => (GetUserReviews memStores st userID).state
  | .getStatistics => (GetStatistics memStores st).state

def runOps (st : MemStore) (ops : List Op) : MemStore :=
  ops.foldl stepOp st

/-- The in-memory stores with a user store whose `GetByID` has lost its
connection. -/
def userLookupDown : Stores MemStore :=
  { memStores with
    userGetByID := fun _ _ => (none, some (.storage "connection refused")) }

/-- The in-memory stores with a team store whose `GetByName` has lost its
connection while `Create` still works. -/
def teamLookupDown : Stores MemStore :=
  { memStores with
    teamGetByName := fun _ _ => (none, some (.storage "connection refused")) }

/-! ## Concrete store states used as examples -/

def alice : User := { ID := "u1", Username := "Alice", TeamName := "backend", IsActive := true }

def bob : User := { ID := "u2", Username := "Bob", TeamName := "backend", IsActive := true }

def charlie : User := { ID := "u3", Username := "Charlie", TeamName := "backend", IsActive := true }

def david : User := { ID := "u4", Username := "David", TeamName := "backend", IsActive := true }

/-- The team of `TestReassignReviewer_E2E`: u1, u2, u3, all active, no pull request. -/
def backend3 : MemStore :=
  { teams := ["backend"], users := [alice, bob, charlie], prs := [] }

/-- The pull request "pr-1" of author u1 with reviewers u2 and u3. -/
def pr1 : PullRequest :=
  { ID := "pr-1", Name := "Add feature", Status := PullRequestStatusOpen,
    AuthorID := "u1", ReviewersIDs := ["u2", "u3"] }

/-- The state of `TestReassignReviewer_E2E` after `CreatePR`: every teammate of
the author already reviews "pr-1". -/
def backend3WithPR : MemStore :=
  { backend3 with prs := [pr1] }

/-- The team of `TestReassignReviewer_Integration` (u1..u4) with "pr-1" open. -/
def backend4WithPR : MemStore :=
  { teams := ["backend"], users := [alice, bob, charlie, david], prs := [pr1] }

/-- The pull request that `CreatePR` builds on `backend3` for author u1 when
every random draw is 0. -/
def createdPR : PullRequest :=
  { ID := "pr-1", Name := "Add feature", Status := PullRequestStatusOpen,
    AuthorID := "u1", ReviewersIDs := ["u3", "u2"] }

/-- The random source whose every draw is 0. -/
def zeroRnd : Nat → Nat := fun _ => 0

/-- The random source whose every draw is 1. -/
def oneRnd : Nat → Nat := fun _ => 1

/-- The state of the scenario "only u2 and u3 active in team": the author u1 is
inactive, "pr-1" is reviewed by u2 and u3. -/
def backendAuthorInactive : MemStore :=
  { teams := ["backend"], users := [{ alice with IsActive := false }, bob, charlie],
    prs := [pr1] }

/-- The state `backend3WithPR` with "pr-1" merged. -/
def backend3Merged : MemStore :=
  { backend3 with prs := [{ pr1 with Status := PullRequestStatusMerged }] }

/-- A team that is not stored yet. -/
def frontendMembers : List User :=
  [{ ID := "u7", Username := "Grace", TeamName := "frontend", IsActive := true }]

/-- Service calls that try to change the merged "pr-1" of `backend3Merged`. -/
def opsAfterMerge : List Op :=
  [.reassignReviewer zeroRnd "pr-1" "u2", .mergePR "pr-1",
   .createPR zeroRnd "pr-1" "Again" "u2", .createPR oneRnd "pr-2" "Other" "u2",
   .reassignReviewer oneRnd "pr-2" "u1", .setUserActive "u3" false,
   .createTeam "frontend" frontendMembers, .mergePR "pr-2", .getUserReviews "u2",
   .getStatistics, .getTeam "backend"]

/-- A statistics map with two counts of Go `int` whose sum is 2^63. -/
def overflowStats : List (String × Int) :=
  [("u1", 9223372036854775807), ("u2", 1)]

/-- A pull request whose status is the zero value of `PullRequestStatus`. -/
def zeroStatusPR : PullRequest :=
  { ID := "pr-7", Name := "Draft", Status := "", AuthorID := "u1", ReviewersIDs := [] }

/-- The request body of `TestCreateTeam_Integration`, with one inactive member. -/
def testTeamDTO : TeamDTO :=
  { TeamName := "test-team",
    Members := [{ UserID := "u1", Username := "Alice", IsActive := true },
                { UserID := "u2", Username := "Bob", IsActive := false }] }

/-- The team that `teamFromDTO` builds from `testTeamDTO`. -/
def testTeam : Team :=
  { Name := "test-team",
    Members := [{ ID := "u1", Username := "Alice", TeamName := "test-team", IsActive := true },
                { ID := "u2", Username := "Bob", TeamName := "test-team", IsActive := false }] }

/-- A `pullRequest/create` body with an empty `pull_request_name`. -/
def unnamedPRRequest : CreatePRDTO :=
  { PullRequestID := "pr-1", PullRequestName := "", AuthorID := "u1" }

/-- Stores that have lost their connection: every call fails with a storage
error and changes nothing. -/
def storesDown : Stores MemStore where
  teamCreate := fun st _ => (some (.storage "connection refused"), st)
  teamGetByName := fun _ _ => (none, some (.storage "connection refused"))
  userGetByID := fun _ _ => (none, some (.storage "connection refused"))
  userUpdate := fun st _ => (some (.storage "connection refused"), st)
  userGetActiveByTeamName := fun _ _ => ([], some (.storage "connection refused"))
  prCreate := fun st _ => (some (.storage "connection refused"), st)
  prGetByID := fun _ _ => (none, some (.storage "connection refused"))
  prUpdate := fun st _ => (some (.storage "connection refused"), st)
  prGetByReviewerID := fun _ _ => (none, some (.storage "connection refused"))
  prGetStatistics := fun _ => ([], some (.storage "connection refused"))

/-- The in-memory stores with a team store whose `GetByName` stops answering
once the team "frontend" is stored. -/
def teamReadBackDown : Stores MemStore :=
  { memStores with
    teamGetByName := fun st name =>
      if st.teams.contains "frontend" then (none, some (.storage "connection refused"))
      else memTeamGetByName st name }

/-! ## The shuffle is a permutation -/

theorem count_set_add {α : Type} [DecidableEq α] (c : α) :
    ∀ (xs : List α) (i : Nat) (a b : α), xs[i]? = some a →
      (xs.set i b).count c + (if a = c then 1 else 0)
        = xs.count c + (if b = c then 1 else 0) := by
  intro xs
  induction xs with
  | nil => intro i a b h; simp at h
  | cons x xs ih =>
    intro i a b h
    cases i with
    | zero =>
      simp at h
      subst h
      simp only [List.set_cons_zero, List.count_cons, beq_iff_eq]
      omega
    | succ i =>
      simp at h
      have := ih i a b h
      simp only [List.set_cons_succ, List.count_cons, beq_iff_eq]
      omega

theorem set_self_of_getElem? {α : Type} :
    ∀ (xs : List α) (i : Nat) (a : α), xs[i]? = some a → xs.set i a = xs := by
  intro xs
  induction xs with
  | nil => intro i a h; simp at h
  | cons x xs ih =>
    intro i a h
    cases i with
    | zero => simp at h; simp [h]
    | succ i => simp at h; simp [ih i a h]

theorem swapAt_perm {α : Type} [DecidableEq α] (xs : List α) (i j : Nat) :
    (swapAt xs i j).Perm xs := by
  unfold swapAt
  split
  next a b hi hj =>
    by_cases hij : i = j
    · subst hij
      have hab : a = b := by rw [hi] at hj; exact Option.some.inj hj
      subst hab
      rw [List.set_set, set_self_of_getElem? xs i a hi]
    · rw [List.perm_iff_count]
      intro c
      have h1 := count_set_add c xs i a b hi
      have hj2 : (xs.set i b)[j]? = some b := by
        rw [List.getElem?_set_ne hij]; exact hj
      have h2 := count_set_add c (xs.set i b) j b a hj2
      omega
  next => exact List.Perm.refl _

theorem shuffleLoop_perm {α : Type} [DecidableEq α] (rnd : Nat → Nat) :
    ∀ (i k : Nat) (xs : List α), (shuffleLoop rnd i k xs).Perm xs := by
  intro i
  induction i with
  | zero => intro k xs; exact List.Perm.refl _
  | succ i ih =>
    intro k xs
    exact (ih (k + 1) _).trans (swapAt_perm xs (i + 1) (rnd k % (i + 2)))

theorem randShuffle_perm {α : Type} [DecidableEq α] (rnd : Nat → Nat) (xs : List α) :
    (randShuffle rnd xs).Perm xs :=
  shuffleLoop_perm rnd _ _ xs

/-- The ids chosen by `selectRandomReviewers` are those of the first
`min m n` shuffled candidates. -/
theorem selectRandomReviewers_eq (rnd : Nat → Nat) (cs : List User) (m : Nat) :
    selectRandomReviewers rnd cs m
      = ((randShuffle rnd cs).take (min m cs.length)).map (fun u => u.ID) := by
  unfold selectRandomReviewers
  by_cases h0 : cs.length = 0
  · have : cs = [] := List.length_eq_zero.mp h0
    subst this
    simp [randShuffle, shuffleLoop]
  · simp only [h0, if_false]
    by_cases hlt : cs.length < m
    · simp only [hlt, if_true]
      rw [Nat.min_eq_right (Nat.le_of_lt hlt)]
    · simp only [hlt, if_false]
      rw [Nat.min_eq_left (Nat.le_of_not_lt hlt)]

theorem selectRandomReviewers_length (rnd : Nat → Nat) (cs : List User) (m : Nat) :
    (selectRandomReviewers rnd cs m).length = min m cs.length := by
  rw [selectRandomReviewers_eq, List.length_map, List.length_take,
    (randShuffle_perm rnd cs).length_eq]
  omega

theorem selectRandomReviewers_chosen (rnd : Nat → Nat) (cs : List User) (m : Nat) :
    ∃ chosen : List User, selectRandomReviewers rnd cs m = chosen.map (fun u => u.ID)
      ∧ (∀ u ∈ chosen, u ∈ cs) ∧ (chosen.Sublist (randShuffle rnd cs)) := by
  refine ⟨(randShuffle rnd cs).take (min m cs.length), selectRandomReviewers_eq rnd cs m, ?_,
    List.take_sublist _ _⟩
  intro u hu
  exact (randShuffle_perm rnd cs).mem_iff.mp (List.mem_of_mem_take hu)

theorem selectRandomReviewers_nodup (rnd : Nat → Nat) (cs : List User) (m : Nat)
    (hd : (cs.map (fun u => u.ID)).Nodup) : (selectRandomReviewers rnd cs m).Nodup := by
  rw [selectRandomReviewers_eq]
  have hp : ((randShuffle rnd cs).map (fun u => u.ID)).Perm (cs.map (fun u => u.ID)) :=
    (randShuffle_perm rnd cs).map _
  have hn : ((randShuffle rnd cs).map (fun u => u.ID)).Nodup := hp.nodup_iff.mpr hd
  exact List.Nodup.sublist ((List.take_sublist _ _).map _) hn

/-! ## What a successful service call did -/

theorem CreatePR_ok_inv {σ : Type} (S : Stores σ) (rnd : Nat → Nat) (st : σ)
    (prID name authorID : String) (pr : PullRequest)
    (h : (CreatePR S rnd st prID name authorID).result = .ok pr) :
    ∃ author cands st1,
      S.userGetByID st authorID = (some author, none) ∧
      S.userGetActiveByTeamName st author.TeamName = (cands, none) ∧
      pr = { ID := prID, Name := name, Status := PullRequestStatusOpen, AuthorID := authorID,
             ReviewersIDs := selectRandomReviewers rnd (createCandidates cands authorID) 2 } ∧
      S.prCreate st pr = (none, st1) ∧
      (CreatePR S rnd st prID name authorID).state = st1 ∧
      (CreatePR S rnd st prID name authorID).calls =
        [Call.prGetByID prID, Call.userGetByID authorID,
         Call.userGetActiveByTeamName author.TeamName, Call.prCreate pr] := by
  unfold CreatePR at h ⊢
  split at h
  · simp at h
  · split at h
    · simp at h
    · split at h
      · simp at h
      · simp at h
      · split at h
        · simp at h
        · dsimp only at h ⊢
          split at h
          · simp at h
          · simp only [Outcome.ok.injEq] at h
            subst h
            exact ⟨_, _, _, by assumption, by assumption, rfl, by assumption, rfl, rfl⟩

/-- When the pull request id is free and the stores answer without an error,
`CreatePR` succeeds, whatever the candidate list is. -/
theorem CreatePR_ok_of {σ : Type} (S : Stores σ) (rnd : Nat → Nat) (st st1 : σ)
    (prID name authorID : String) (author : User) (cands : List User)
    (hG : S.prGetByID st prID = (none, some .NotFound))
    (hA : S.userGetByID st authorID = (some author, none))
    (hC : S.userGetActiveByTeamName st author.TeamName = (cands, none))
    (hCr : S.prCreate st
      { ID := prID, Name := name, Status := PullRequestStatusOpen, AuthorID := authorID,
        ReviewersIDs := selectRandomReviewers rnd (createCandidates cands authorID) 2 }
      = (none, st1)) :
    (CreatePR S rnd st prID name authorID).result =
      .ok { ID := prID, Name := name, Status := PullRequestStatusOpen, AuthorID := authorID,
            ReviewersIDs := selectRandomReviewers rnd (createCandidates cands authorID) 2 } := by
  simp [CreatePR, hG, hA, hC, hCr, errorsIs, Option.filter]

theorem ReassignReviewer_ok_inv {σ : Type} (S : Stores σ) (rnd : Nat → Nat) (st : σ)
    (prID oldReviewerID : String) (pr1 : PullRequest) (newID : String)
    (h : (ReassignReviewer S rnd st prID oldReviewerID).result = .ok (pr1, newID)) :
    ∃ pr oldReviewer cands newReviewer st1,
      S.prGetByID st prID = (some pr, none) ∧
      pr.CanReassign = true ∧
      pr.HasReviewer oldReviewerID = true ∧
      S.userGetByID st oldReviewerID = (some oldReviewer, none) ∧
      S.userGetActiveByTeamName st oldReviewer.TeamName = (cands, none) ∧
      (reassignCandidates cands pr oldReviewerID)[rnd 0 %
          (reassignCandidates cands pr oldReviewerID).length]? = some newReviewer ∧
      newID = newReviewer.ID ∧
      pr1 = { pr with
              ReviewersIDs := replaceFirst oldReviewerID newReviewer.ID pr.ReviewersIDs } ∧
      S.prUpdate st pr1 = (none, st1) ∧
      (ReassignReviewer S rnd st prID oldReviewerID).state = st1 ∧
      (ReassignReviewer S rnd st prID oldReviewerID).calls =
        [Call.prGetByID prID, Call.userGetByID oldReviewerID,
         Call.userGetActiveByTeamName oldReviewer.TeamName, Call.prUpdate pr1] := by
  unfold ReassignReviewer at h ⊢
  split at h
  · simp at h
  · simp at h
  · split at h
    · simp at h
    · split at h
      · simp at h
      · split at h
        · simp at h
        · simp at h
        · split at h
          · simp at h
          · dsimp only at h ⊢
            split at h
            · simp at h
            · split at h
              · simp at h
              · split at h
                · simp at h
                · simp only [Outcome.ok.injEq, Prod.mk.injEq] at h
                  obtain ⟨h1, h2⟩ := h
                  subst h1
                  subst h2
                  have hcan : ∀ b : Bool, ¬ ((!b) = true) → b = true := by
                    intro b hb; cases b <;> simp at hb ⊢
                  rw [if_neg ‹_›, if_neg ‹_›, if_neg ‹_›]
                  exact ⟨_, _, _, _, _, by assumption, hcan _ ‹_›, hcan _ ‹_›, by assumption,
                    by assumption, by assumption, rfl, rfl, by assumption, rfl, rfl⟩

theorem ReassignReviewer_ok_of {σ : Type} (S : Stores σ) (rnd : Nat → Nat) (st st1 : σ)
    (prID oldReviewerID : String) (pr : PullRequest) (oldReviewer newReviewer : User)
    (cands : List User)
    (hG : S.prGetByID st prID = (some pr, none))
    (hO : pr.CanReassign = true)
    (hH : pr.HasReviewer oldReviewerID = true)
    (hU : S.userGetByID st oldReviewerID = (some oldReviewer, none))
    (hC : S.userGetActiveByTeamName st oldReviewer.TeamName = (cands, none))
    (hN : (reassignCandidates cands pr oldReviewerID)[rnd 0 %
        (reassignCandidates cands pr oldReviewerID).length]? = some newReviewer)
    (hUp : S.prUpdate st
      { pr with ReviewersIDs := replaceFirst oldReviewerID newReviewer.ID pr.ReviewersIDs }
      = (none, st1)) :
    (ReassignReviewer S rnd st prID oldReviewerID).result =
      .ok ({ pr with
             ReviewersIDs := replaceFirst oldReviewerID newReviewer.ID pr.ReviewersIDs },
           newReviewer.ID) := by
  have hlen : (reassignCandidates cands pr oldReviewerID).length ≠ 0 := by
    intro h0
    rw [List.length_eq_zero.mp h0] at hN
    simp at hN
  simp [ReassignReviewer, hG, hO, hH, hU, hC, hN, hUp, hlen]

/-! ## The replacement loop -/

theorem replaceFirst_length (old new : String) (l : List String) :
    (replaceFirst old new l).length = l.length := by
  induction l with
  | nil => rfl
  | cons r rs ih =>
    unfold replaceFirst
    split <;> simp [ih]

theorem replaceFirst_spec (old new : String) :
    ∀ l : List String, old ∈ l →
      ∃ i : Nat, l[i]? = some old ∧ (∀ j : Nat, j < i → l[j]? ≠ some old) ∧
        (replaceFirst old new l)[i]? = some new ∧
        ∀ j : Nat, j ≠ i → (replaceFirst old new l)[j]? = l[j]? := by
  intro l
  induction l with
  | nil => intro h; simp at h
  | cons r rs ih =>
    intro h
    by_cases hr : r = old
    · refine ⟨0, by simp [hr], by intro j hj; omega, by simp [replaceFirst, hr], ?_⟩
      intro j hj
      cases j with
      | zero => exact absurd rfl hj
      | succ j => simp [replaceFirst, hr]
    · have hmem : old ∈ rs := by
        rcases List.mem_cons.mp h with h1 | h1
        · exact absurd h1.symm hr
        · exact h1
      obtain ⟨i, h1, h2, h3, h4⟩ := ih hmem
      refine ⟨i + 1, by simpa using h1, ?_, by simpa [replaceFirst, hr] using h3, ?_⟩
      · intro j hj
        cases j with
        | zero => simp [hr]
        | succ j => simpa using h2 j (by omega)
      · intro j hj
        cases j with
        | zero => simp [replaceFirst, hr]
        | succ j => simpa [replaceFirst, hr] using h4 j (by omega)

/-! ## Candidate pool of `CreatePR` -/

theorem createCandidates_mem (cands : List User) (authorID : String) (u : User)
    (h : u ∈ createCandidates cands authorID) :
    u ∈ cands ∧ u.ID ≠ authorID ∧ u.IsActive = true := by
  unfold createCandidates at h
  rw [List.mem_filter] at h
  obtain ⟨h1, h2⟩ := h
  simp [User.CanBeReviewer] at h2
  exact ⟨h1, h2.1, h2.2⟩

theorem createCandidates_length (cands : List User) (authorID : String) :
    (createCandidates cands authorID).length
      = cands.countP (fun u => u.IsActive && u.ID != authorID) := by
  unfold createCandidates
  rw [List.countP_eq_length_filter]
  congr 2
  funext u
  simp [User.CanBeReviewer, Bool.and_comm]

/-! ## Claims about `CreatePR` -/

/-- C1 (the code at the failing input): on the state of `TestReassignReviewer_E2E`
(team u1, u2, u3 all active, "pr-1" by u1 is OPEN with reviewers u2, u3 and does
not list its author), `ReassignReviewer("pr-1", "u2")` succeeds for every outcome
of the random source and returns a reviewer list that contains the author u1. -/
theorem ReassignReviewer_assigns_author (rnd : Nat → Nat) :
    memStores.prGetByID backend3WithPR "pr-1" = (some pr1, none)
      ∧ pr1.CanReassign = true
      ∧ pr1.HasReviewer pr1.AuthorID = false
      ∧ (ReassignReviewer memStores rnd backend3WithPR "pr-1" "u2").result
          = .ok ({ pr1 with ReviewersIDs := ["u1", "u3"] }, "u1")
      ∧ ({ pr1 with ReviewersIDs := ["u1", "u3"] } : PullRequest).HasReviewer pr1.AuthorID
          = true := by
  refine ⟨by decide, by decide, by decide, ?_, by decide⟩
  have hpool : reassignCandidates [alice, bob, charlie] pr1 "u2" = [alice] := by decide
  exact ReassignReviewer_ok_of memStores rnd backend3WithPR
    (memStores.prUpdate backend3WithPR { pr1 with ReviewersIDs := ["u1", "u3"] }).2
    "pr-1" "u2" pr1 bob alice [alice, bob, charlie]
    (by decide) (by decide) (by decide) (by decide) (by decide)
    (by rw [hpool]; simp [Nat.mod_one]) (by decide)

/-- C2: when `CreatePR` succeeds and the users that `GetActiveByTeamName`
returned for the author's team have pairwise distinct ids, then for every random
source the created pull request's reviewer list does not contain `authorID` and
contains no id twice. -/
theorem CreatePR_reviewers_exclude_author_nodup {σ : Type} (S : Stores σ) (rnd : Nat → Nat)
    (st : σ) (prID name authorID : String) (pr : PullRequest) (author : User)
    (cands : List User)
    (hok : (CreatePR S rnd st prID name authorID).result = .ok pr)
    (hA : S.userGetByID st authorID = (some author, none))
    (hC : S.userGetActiveByTeamName st author.TeamName = (cands, none))
    (hd : cands.Pairwise (fun a b => a.ID ≠ b.ID)) :
    authorID ∉ pr.ReviewersIDs ∧ pr.ReviewersIDs.Nodup := by
  obtain ⟨author1, cands1, st1, hA1, hC1, hpr, -, -, -⟩ :=
    CreatePR_ok_inv S rnd st prID name authorID pr hok
  rw [hA] at hA1
  obtain rfl : author = author1 := by simpa using hA1
  rw [hC] at hC1
  obtain rfl : cands = cands1 := by simpa using hC1
  subst hpr
  dsimp only
  constructor
  · intro hmem
    obtain ⟨chosen, hsel, hsub, -⟩ :=
      selectRandomReviewers_chosen rnd (createCandidates cands authorID) 2
    rw [hsel, List.mem_map] at hmem
    obtain ⟨u, hu, hid⟩ := hmem
    exact (createCandidates_mem cands authorID u (hsub u hu)).2.1 hid
  · apply selectRandomReviewers_nodup
    have hnd : (cands.map (fun u => u.ID)).Nodup := by
      rw [List.Nodup, List.pairwise_map]
      exact hd
    exact List.Nodup.sublist ((List.filter_sublist cands).map _) hnd

theorem CreatePR_reviewers_exclude_author_nodup_witness :
    (CreatePR memStores zeroRnd backend3 "pr-1" "Add feature" "u1").result = .ok createdPR
      ∧ memStores.userGetByID backend3 "u1" = (some alice, none)
      ∧ memStores.userGetActiveByTeamName backend3 alice.TeamName
          = ([alice, bob, charlie], none)
      ∧ [alice, bob, charlie].Pairwise (fun a b => a.ID ≠ b.ID)
      ∧ "u1" ∉ createdPR.ReviewersIDs ∧ createdPR.ReviewersIDs.Nodup :=
  ⟨by decide, by decide, by decide, by decide,
    CreatePR_reviewers_exclude_author_nodup memStores zeroRnd backend3 "pr-1" "Add feature"
      "u1" createdPR alice [alice, bob, charlie] (by decide) (by decide) (by decide)
      (by decide)⟩

/-- C3: with `n` the number of users returned for the author's team that are
active and whose id differs from `authorID`, every successful `CreatePR` assigns
exactly `min 2 n` reviewers; and when the id is free and the stores answer
without error the call does succeed, with `min 2 n` reviewers, also for `n = 0`. -/
theorem CreatePR_reviewer_count {σ : Type} (S : Stores σ) (rnd : Nat → Nat)
    (st : σ) (prID name authorID : String) (author : User) (cands : List User)
    (hA : S.userGetByID st authorID = (some author, none))
    (hC : S.userGetActiveByTeamName st author.TeamName = (cands, none)) :
    (∀ pr, (CreatePR S rnd st prID name authorID).result = .ok pr →
        pr.ReviewersIDs.length
          = min 2 (cands.countP (fun u => u.IsActive && u.ID != authorID)))
      ∧ (S.prGetByID st prID = (none, some .NotFound) →
          (∀ p, (S.prCreate st p).1 = none) →
          ∃ pr, (CreatePR S rnd st prID name authorID).result = .ok pr
            ∧ pr.ReviewersIDs.length
              = min 2 (cands.countP (fun u => u.IsActive && u.ID != authorID))) := by
  have hlen : ∀ pr, (CreatePR S rnd st prID name authorID).result = .ok pr →
      pr.ReviewersIDs.length
        = min 2 (cands.countP (fun u => u.IsActive && u.ID != authorID)) := by
    intro pr hok
    obtain ⟨author1, cands1, st1, hA1, hC1, hpr, -, -, -⟩ :=
      CreatePR_ok_inv S rnd st prID name authorID pr hok
    rw [hA] at hA1
    obtain rfl : author = author1 := by simpa using hA1
    rw [hC] at hC1
    obtain rfl : cands = cands1 := by simpa using hC1
    subst hpr
    dsimp only
    rw [selectRandomReviewers_length, createCandidates_length]
  refine ⟨hlen, ?_⟩
  intro hG hCr
  have hres := CreatePR_ok_of S rnd st
    (S.prCreate st
      { ID := prID, Name := name, Status := PullRequestStatusOpen, AuthorID := authorID,
        ReviewersIDs := selectRandomReviewers rnd (createCandidates cands authorID) 2 }).2
    prID name authorID author cands hG hA hC (Prod.ext (hCr _) rfl)
  exact ⟨_, hres, hlen _ hres⟩

theorem CreatePR_reviewer_count_witness :
    memStores.userGetByID backend3 "u1" = (some alice, none)
      ∧ memStores.userGetActiveByTeamName backend3 alice.TeamName
          = ([alice, bob, charlie], none)
      ∧ memStores.prGetByID backend3 "pr-1" = (none, some .NotFound)
      ∧ createdPR.ReviewersIDs.length
          = min 2 ([alice, bob, charlie].countP (fun u => u.IsActive && u.ID != "u1"))
      ∧ ∃ pr, (CreatePR memStores zeroRnd backend3 "pr-1" "Add feature" "u1").result = .ok pr
          ∧ pr.ReviewersIDs.length
              = min 2 ([alice, bob, charlie].countP (fun u => u.IsActive && u.ID != "u1")) :=
  ⟨by decide, by decide, by decide,
    (CreatePR_reviewer_count memStores zeroRnd backend3 "pr-1" "Add feature" "u1" alice
      [alice, bob, charlie] (by decide) (by decide)).1 createdPR (by decide),
    (CreatePR_reviewer_count memStores zeroRnd backend3 "pr-1" "Add feature" "u1" alice
      [alice, bob, charlie] (by decide) (by decide)).2 (by decide) (fun _ => rfl)⟩

/-- C4: when `CreatePR` succeeds, for every random source the reviewer list is
the list of ids of chosen users, each of which `GetActiveByTeamName` returned for
the author's team with the active flag true; so every assigned id belongs to
such a user and no returned user with the flag false is chosen. -/
theorem CreatePR_reviewers_are_active_teammates {σ : Type} (S : Stores σ) (rnd : Nat → Nat)
    (st : σ) (prID name authorID : String) (pr : PullRequest) (author : User)
    (cands : List User)
    (hok : (CreatePR S rnd st prID name authorID).result = .ok pr)
    (hA : S.userGetByID st authorID = (some author, none))
    (hC : S.userGetActiveByTeamName st author.TeamName = (cands, none)) :
    (∃ chosen : List User, pr.ReviewersIDs = chosen.map (fun u => u.ID)
        ∧ ∀ u ∈ chosen, u ∈ cands ∧ u.IsActive = true)
      ∧ ∀ id ∈ pr.ReviewersIDs, ∃ u ∈ cands, u.ID = id ∧ u.IsActive = true := by
  obtain ⟨author1, cands1, st1, hA1, hC1, hpr, -, -, -⟩ :=
    CreatePR_ok_inv S rnd st prID name authorID pr hok
  rw [hA] at hA1
  obtain rfl : author = author1 := by simpa using hA1
  rw [hC] at hC1
  obtain rfl : cands = cands1 := by simpa using hC1
  subst hpr
  dsimp only
  obtain ⟨chosen, hsel, hsub, -⟩ :=
    selectRandomReviewers_chosen rnd (createCandidates cands authorID) 2
  have hch : ∀ u ∈ chosen, u ∈ cands ∧ u.IsActive = true := by
    intro u hu
    have := createCandidates_mem cands authorID u (hsub u hu)
    exact ⟨this.1, this.2.2⟩
  refine ⟨⟨chosen, hsel, hch⟩, ?_⟩
  intro id hid
  rw [hsel, List.mem_map] at hid
  obtain ⟨u, hu, rfl⟩ := hid
  exact ⟨u, (hch u hu).1, rfl, (hch u hu).2⟩

theorem CreatePR_reviewers_are_active_teammates_witness :
    (CreatePR memStores zeroRnd backend3 "pr-1" "Add feature" "u1").result = .ok createdPR
      ∧ memStores.userGetByID backend3 "u1" = (some alice, none)
      ∧ memStores.userGetActiveByTeamName backend3 alice.TeamName
          = ([alice, bob, charlie], none)
      ∧ ((∃ chosen : List User, createdPR.ReviewersIDs = chosen.map (fun u => u.ID)
            ∧ ∀ u ∈ chosen, u ∈ [alice, bob, charlie] ∧ u.IsActive = true)
          ∧ ∀ id ∈ createdPR.ReviewersIDs,
              ∃ u ∈ [alice, bob, charlie], u.ID = id ∧ u.IsActive = true) :=
  ⟨by decide, by decide, by decide,
    CreatePR_reviewers_are_active_teammates memStores zeroRnd backend3 "pr-1" "Add feature"
      "u1" createdPR alice [alice, bob, charlie] (by decide) (by decide) (by decide)⟩

/-- C5: if the PR store returns a pull request for `prID`, `CreatePR` fails with
`PRExists` after that single look-up, whatever the user store holds; if the PR
store reports `NotFound` and the user store reports `NotFound` for the author,
it fails with `NotFound`; in both cases no call of the PR store's `Create` is
made and the store state is the initial one. -/
theorem CreatePR_exists_then_author_check {σ : Type} (S : Stores σ) (rnd : Nat → Nat)
    (st : σ) (prID name authorID : String) :
    (∀ existing, S.prGetByID st prID = (some existing, none) →
        CreatePR S rnd st prID name authorID
          = ⟨.fail .PRExists, st, [Call.prGetByID prID]⟩)
      ∧ (S.prGetByID st prID = (none, some .NotFound) →
          S.userGetByID st authorID = (none, some .NotFound) →
          CreatePR S rnd st prID name authorID
            = ⟨.fail .NotFound, st, [Call.prGetByID prID, Call.userGetByID authorID]⟩)
      ∧ ((∃ existing, S.prGetByID st prID = (some existing, none))
            ∨ (S.prGetByID st prID = (none, some .NotFound)
                ∧ S.userGetByID st authorID = (none, some .NotFound)) →
          (CreatePR S rnd st prID name authorID).calls.any Call.isPRCreate = false
            ∧ (CreatePR S rnd st prID name authorID).state = st) := by
  have h1 : ∀ existing, S.prGetByID st prID = (some existing, none) →
      CreatePR S rnd st prID name authorID
        = ⟨.fail .PRExists, st, [Call.prGetByID prID]⟩ := by
    intro existing hG
    simp [CreatePR, hG]
  have h2 : S.prGetByID st prID = (none, some .NotFound) →
      S.userGetByID st authorID = (none, some .NotFound) →
      CreatePR S rnd st prID name authorID
        = ⟨.fail .NotFound, st, [Call.prGetByID prID, Call.userGetByID authorID]⟩ := by
    intro hG hA
    simp [CreatePR, hG, hA, errorsIs, Option.filter]
  refine ⟨h1, h2, ?_⟩
  rintro (⟨existing, hG⟩ | ⟨hG, hA⟩)
  · rw [h1 existing hG]
    exact ⟨by simp [Call.isPRCreate], rfl⟩
  · rw [h2 hG hA]
    exact ⟨by simp [Call.isPRCreate], rfl⟩

theorem CreatePR_exists_then_author_check_witness :
    memStores.prGetByID backend3WithPR "pr-1" = (some pr1, none)
      ∧ CreatePR memStores zeroRnd backend3WithPR "pr-1" "Again" "nobody"
          = ⟨.fail .PRExists, backend3WithPR, [Call.prGetByID "pr-1"]⟩
      ∧ memStores.prGetByID backend3 "pr-1" = (none, some .NotFound)
      ∧ memStores.userGetByID backend3 "nobody" = (none, some .NotFound)
      ∧ CreatePR memStores zeroRnd backend3 "pr-1" "Add feature" "nobody"
          = ⟨.fail .NotFound, backend3, [Call.prGetByID "pr-1", Call.userGetByID "nobody"]⟩ :=
  ⟨by decide,
    (CreatePR_exists_then_author_check memStores zeroRnd backend3WithPR "pr-1" "Again"
      "nobody").1 pr1 (by decide),
    by decide, by decide,
    (CreatePR_exists_then_author_check memStores zeroRnd backend3 "pr-1" "Add feature"
      "nobody").2.1 (by decide) (by decide)⟩

/-- C6: a successful `CreatePR(prID, name, authorID)` returns a pull request
with `ID = prID`, `Name = name`, `AuthorID = authorID` and status OPEN, and the
call made exactly one `Create` on the PR store, with that pull request. -/
theorem CreatePR_returns_created_open_pr {σ : Type} (S : Stores σ) (rnd : Nat → Nat)
    (st : σ) (prID name authorID : String) (pr : PullRequest)
    (hok : (CreatePR S rnd st prID name authorID).result = .ok pr) :
    pr.ID = prID ∧ pr.Name = name ∧ pr.AuthorID = authorID
      ∧ pr.Status = PullRequestStatusOpen
      ∧ (CreatePR S rnd st prID name authorID).calls.filter Call.isPRCreate
          = [Call.prCreate pr]
      ∧ (CreatePR S rnd st prID name authorID).state = (S.prCreate st pr).2 := by
  obtain ⟨author1, cands1, st1, -, -, hpr, hCr, hst, hcalls⟩ :=
    CreatePR_ok_inv S rnd st prID name authorID pr hok
  rw [hcalls, hst, hCr]
  subst hpr
  simp [Call.isPRCreate]

theorem CreatePR_returns_created_open_pr_witness :
    (CreatePR memStores zeroRnd backend3 "pr-1" "Add feature" "u1").result = .ok createdPR
      ∧ (createdPR.ID = "pr-1" ∧ createdPR.Name = "Add feature" ∧ createdPR.AuthorID = "u1"
        ∧ createdPR.Status = PullRequestStatusOpen
        ∧ (CreatePR memStores zeroRnd backend3 "pr-1" "Add feature" "u1").calls.filter
            Call.isPRCreate = [Call.prCreate createdPR]
        ∧ (CreatePR memStores zeroRnd backend3 "pr-1" "Add feature" "u1").state
            = (memStores.prCreate backend3 createdPR).2) :=
  ⟨by decide,
    CreatePR_returns_created_open_pr memStores zeroRnd backend3 "pr-1" "Add feature" "u1"
      createdPR (by decide)⟩

/-! ## Claims about `MergePR` -/

theorem MergePR_merged_eq {σ : Type} (S : Stores σ) (st : σ) (prID : String)
    (pr : PullRequest) (hget : S.prGetByID st prID = (some pr, none))
    (hm : pr.IsMerged = true) :
    MergePR S st prID = ⟨.ok pr, st, [Call.prGetByID prID]⟩ := by
  simp [MergePR, hget, hm]

theorem MergePR_unmerged_eq {σ : Type} (S : Stores σ) (st st1 : σ) (prID : String)
    (pr : PullRequest) (hget : S.prGetByID st prID = (some pr, none))
    (hm : pr.IsMerged = false)
    (hupd : S.prUpdate st { pr with Status := PullRequestStatusMerged } = (none, st1)) :
    MergePR S st prID
      = ⟨.ok { pr with Status := PullRequestStatusMerged }, st1,
          [Call.prGetByID prID, Call.prUpdate { pr with Status := PullRequestStatusMerged }]⟩ := by
  simp [MergePR, hget, hm, hupd]

/-- C7: for a pull request present in the store (the store returns it for its
id), with a store whose `Update` succeeds and whose next look-up returns the
updated pull request, two `MergePR` calls in succession both succeed, the second
returns the same pull request as the first (status MERGED, same reviewers),
leaves the state as it is and makes no `Update` call; and `MergePR` on an already
MERGED pull request returns it unchanged after the single look-up. -/
theorem MergePR_idempotent {σ : Type} (S : Stores σ) (st st1 : σ) (pr : PullRequest)
    (hget : S.prGetByID st pr.ID = (some pr, none))
    (hupd : pr.IsMerged = false →
      S.prUpdate st { pr with Status := PullRequestStatusMerged } = (none, st1)
        ∧ S.prGetByID st1 pr.ID = (some { pr with Status := PullRequestStatusMerged }, none)) :
    (MergePR S st pr.ID).result = .ok { pr with Status := PullRequestStatusMerged }
      ∧ (MergePR S (MergePR S st pr.ID).state pr.ID).result = (MergePR S st pr.ID).result
      ∧ (MergePR S (MergePR S st pr.ID).state pr.ID).state = (MergePR S st pr.ID).state
      ∧ (MergePR S (MergePR S st pr.ID).state pr.ID).calls = [Call.prGetByID pr.ID]
      ∧ (pr.IsMerged = true → MergePR S st pr.ID = ⟨.ok pr, st, [Call.prGetByID pr.ID]⟩) := by
  cases hm : pr.IsMerged with
  | true =>
    have hst : pr.Status = PullRequestStatusMerged := by
      simpa [PullRequest.IsMerged] using hm
    have hpr : ({ pr with Status := PullRequestStatusMerged } : PullRequest) = pr := by
      cases pr
      simp only [PullRequest.mk.injEq, true_and, and_true] at hst ⊢
      simp [hst]
    have h1 := MergePR_merged_eq S st pr.ID pr hget hm
    rw [hpr, h1]
    dsimp only
    rw [h1]
    exact ⟨rfl, rfl, rfl, rfl, fun _ => rfl⟩
  | false =>
    obtain ⟨hu, hg1⟩ := hupd hm
    have h1 := MergePR_unmerged_eq S st st1 pr.ID pr hget hm hu
    have h2 := MergePR_merged_eq S st1 pr.ID { pr with Status := PullRequestStatusMerged } hg1
      (by simp [PullRequest.IsMerged])
    rw [h1]
    dsimp only
    rw [h2]
    exact ⟨rfl, rfl, rfl, rfl, fun h => by simp at h⟩

theorem MergePR_idempotent_witness :
    memStores.prGetByID backend3WithPR pr1.ID = (some pr1, none)
      ∧ (MergePR memStores backend3WithPR pr1.ID).result
          = .ok { pr1 with Status := PullRequestStatusMerged }
      ∧ (MergePR memStores (MergePR memStores backend3WithPR pr1.ID).state pr1.ID).result
          = (MergePR memStores backend3WithPR pr1.ID).result
      ∧ (MergePR memStores (MergePR memStores backend3WithPR pr1.ID).state pr1.ID).state
          = (MergePR memStores backend3WithPR pr1.ID).state
      ∧ (MergePR memStores (MergePR memStores backend3WithPR pr1.ID).state pr1.ID).calls
          = [Call.prGetByID pr1.ID]
      ∧ (pr1.IsMerged = true →
          MergePR memStores backend3WithPR pr1.ID
            = ⟨.ok pr1, backend3WithPR, [Call.prGetByID pr1.ID]⟩) :=
  ⟨by decide,
    MergePR_idempotent memStores backend3WithPR backend3Merged pr1 (by decide)
      (fun _ => ⟨by decide, by decide⟩)⟩

/-- C8: if the PR store reports `NotFound`, `MergePR` fails with `NotFound`
after the single look-up (no `Update`); if the store returns a pull request with
status OPEN, the call makes exactly one `Update`, with a pull request of status
MERGED and the same id, name, author and reviewer list, which is the only pull
request the call can return and is returned whenever `Update` succeeds. -/
theorem MergePR_absent_or_open {σ : Type} (S : Stores σ) (st : σ) (prID : String) :
    (S.prGetByID st prID = (none, some .NotFound) →
        MergePR S st prID = ⟨.fail .NotFound, st, [Call.prGetByID prID]⟩)
      ∧ (∀ pr, S.prGetByID st prID = (some pr, none) → pr.Status = PullRequestStatusOpen →
          ∃ merged : PullRequest,
            (MergePR S st prID).calls = [Call.prGetByID prID, Call.prUpdate merged]
              ∧ merged.Status = PullRequestStatusMerged
              ∧ merged.ID = pr.ID ∧ merged.Name = pr.Name ∧ merged.AuthorID = pr.AuthorID
              ∧ merged.ReviewersIDs = pr.ReviewersIDs
              ∧ (∀ p, (MergePR S st prID).result = .ok p → p = merged)
              ∧ ((S.prUpdate st merged).1 = none → (MergePR S st prID).result = .ok merged)
              ∧ (MergePR S st prID).state = (S.prUpdate st merged).2) := by
  constructor
  · intro hG
    simp [MergePR, hG]
  · intro pr hG hopen
    have hm : pr.IsMerged = false := by
      simp [PullRequest.IsMerged, hopen, PullRequestStatusOpen, PullRequestStatusMerged]
    refine ⟨{ pr with Status := PullRequestStatusMerged }, ?_, rfl, rfl, rfl, rfl, rfl, ?_, ?_, ?_⟩
    · rcases hu : S.prUpdate st { pr with Status := PullRequestStatusMerged } with ⟨e, st1⟩
      cases e <;> simp [MergePR, hG, hm, hu]
    · intro p hp
      rcases hu : S.prUpdate st { pr with Status := PullRequestStatusMerged } with ⟨e, st1⟩
      cases e with
      | none =>
        rw [MergePR_unmerged_eq S st st1 prID pr hG hm hu] at hp
        simpa using hp.symm
      | some e => simp [MergePR, hG, hm, hu] at hp
    · intro hu
      exact congrArg Run.result
        (MergePR_unmerged_eq S st _ prID pr hG hm (Prod.ext hu rfl))
    · rcases hu : S.prUpdate st { pr with Status := PullRequestStatusMerged } with ⟨e, st1⟩
      cases e <;> simp [MergePR, hG, hm, hu]

theorem MergePR_absent_or_open_witness :
    memStores.prGetByID backend3 "pr-9" = (none, some .NotFound)
      ∧ MergePR memStores backend3 "pr-9" = ⟨.fail .NotFound, backend3, [Call.prGetByID "pr-9"]⟩
      ∧ memStores.prGetByID backend3WithPR "pr-1" = (some pr1, none)
      ∧ pr1.Status = PullRequestStatusOpen
      ∧ ∃ merged : PullRequest,
          (MergePR memStores backend3WithPR "pr-1").calls
              = [Call.prGetByID "pr-1", Call.prUpdate merged]
            ∧ merged.Status = PullRequestStatusMerged
            ∧ merged.ID = pr1.ID ∧ merged.Name = pr1.Name ∧ merged.AuthorID = pr1.AuthorID
            ∧ merged.ReviewersIDs = pr1.ReviewersIDs
            ∧ (∀ p, (MergePR memStores backend3WithPR "pr-1").result = .ok p → p = merged)
            ∧ ((memStores.prUpdate backend3WithPR merged).1 = none →
                (MergePR memStores backend3WithPR "pr-1").result = .ok merged)
            ∧ (MergePR memStores backend3WithPR "pr-1").state
                = (memStores.prUpdate backend3WithPR merged).2 :=
  ⟨by decide, (MergePR_absent_or_open memStores backend3 "pr-9").1 (by decide),
    by decide, by decide,
    (MergePR_absent_or_open memStores backend3WithPR "pr-1").2 pr1 (by decide) (by decide)⟩

/-! ## Claims about `ReassignReviewer` -/

/-- C9: when the PR store returns a pull request with status MERGED, then for
every `oldReviewerID` and every random source `ReassignReviewer` fails with
`PRMerged`; its only store call is the look-up of the pull request (no `Update`,
no user look-up), the store state is the initial one, and the store still
returns the same pull request with the same reviewer list. -/
theorem ReassignReviewer_merged_fails {σ : Type} (S : Stores σ) (rnd : Nat → Nat) (st : σ)
    (prID oldReviewerID : String) (pr : PullRequest)
    (hget : S.prGetByID st prID = (some pr, none))
    (hm : pr.Status = PullRequestStatusMerged) :
    ReassignReviewer S rnd st prID oldReviewerID
        = ⟨.fail .PRMerged, st, [Call.prGetByID prID]⟩
      ∧ (ReassignReviewer S rnd st prID oldReviewerID).calls.any Call.isPRUpdate = false
      ∧ S.prGetByID (ReassignReviewer S rnd st prID oldReviewerID).state prID
          = (some pr, none) := by
  have hcan : pr.CanReassign = false := by
    simp [PullRequest.CanReassign, hm, PullRequestStatusOpen, PullRequestStatusMerged]
  have h : ReassignReviewer S rnd st prID oldReviewerID
      = ⟨.fail .PRMerged, st, [Call.prGetByID prID]⟩ := by
    simp [ReassignReviewer, hget, hcan]
  rw [h]
  exact ⟨rfl, by simp [Call.isPRUpdate], hget⟩

theorem ReassignReviewer_merged_fails_witness :
    memStores.prGetByID backend3Merged "pr-1"
        = (some { pr1 with Status := PullRequestStatusMerged }, none)
      ∧ ReassignReviewer memStores zeroRnd backend3Merged "pr-1" "u2"
          = ⟨.fail .PRMerged, backend3Merged, [Call.prGetByID "pr-1"]⟩
      ∧ (ReassignReviewer memStores zeroRnd backend3Merged "pr-1" "u2").calls.any
          Call.isPRUpdate = false
      ∧ memStores.prGetByID
          (ReassignReviewer memStores zeroRnd backend3Merged "pr-1" "u2").state "pr-1"
          = (some { pr1 with Status := PullRequestStatusMerged }, none) :=
  ⟨by decide,
    ReassignReviewer_merged_fails memStores zeroRnd backend3Merged "pr-1" "u2"
      { pr1 with Status := PullRequestStatusMerged } (by decide) (by decide)⟩

/-- C10: when `ReassignReviewer` succeeds on the pull request `pr` that the store
returned, the returned reviewer list has the length of the old one, holds the
returned new reviewer id at the first index at which `oldReviewerID` occurred and
agrees with the old list at every other index; id, name, author and status of
the pull request are unchanged, the status is OPEN, and the call made exactly
one `Update`, with the returned pull request. -/
theorem ReassignReviewer_replaces_in_place {σ : Type} (S : Stores σ) (rnd : Nat → Nat)
    (st : σ) (prID oldReviewerID : String) (pr updated : PullRequest) (newID : String)
    (hget : S.prGetByID st prID = (some pr, none))
    (hok : (ReassignReviewer S rnd st prID oldReviewerID).result = .ok (updated, newID)) :
    updated.ReviewersIDs.length = pr.ReviewersIDs.length
      ∧ (∃ i : Nat, pr.ReviewersIDs[i]? = some oldReviewerID
          ∧ (∀ j : Nat, j < i → pr.ReviewersIDs[j]? ≠ some oldReviewerID)
          ∧ updated.ReviewersIDs[i]? = some newID
          ∧ ∀ j : Nat, j ≠ i → updated.ReviewersIDs[j]? = pr.ReviewersIDs[j]?)
      ∧ updated.ID = pr.ID ∧ updated.Name = pr.Name ∧ updated.AuthorID = pr.AuthorID
      ∧ updated.Status = pr.Status ∧ updated.Status = PullRequestStatusOpen
      ∧ (ReassignReviewer S rnd st prID oldReviewerID).calls.filter Call.isPRUpdate
          = [Call.prUpdate updated]
      ∧ (ReassignReviewer S rnd st prID oldReviewerID).state = (S.prUpdate st updated).2 := by
  obtain ⟨pr0, oldReviewer, cands, newReviewer, st1, hG, hcan, hhas, -, -, -, hnew, hupd,
    hU, hst, hcalls⟩ := ReassignReviewer_ok_inv S rnd st prID oldReviewerID updated newID hok
  rw [hget] at hG
  obtain rfl : pr = pr0 := by simpa using hG
  have hmem : oldReviewerID ∈ pr.ReviewersIDs := by
    simpa [PullRequest.HasReviewer] using hhas
  have hopen : pr.Status = PullRequestStatusOpen := by
    simpa [PullRequest.CanReassign] using hcan
  rw [hcalls, hst, hU]
  subst hupd
  subst hnew
  dsimp only
  refine ⟨replaceFirst_length _ _ _, replaceFirst_spec _ _ _ hmem, rfl, rfl, rfl, rfl, hopen,
    ?_, rfl⟩
  simp [Call.isPRUpdate]

theorem ReassignReviewer_replaces_in_place_witness :
    memStores.prGetByID backend4WithPR "pr-1" = (some pr1, none)
      ∧ (ReassignReviewer memStores oneRnd backend4WithPR "pr-1" "u3").result
          = .ok ({ pr1 with ReviewersIDs := ["u2", "u4"] }, "u4")
      ∧ (["u2", "u4"].length = pr1.ReviewersIDs.length
        ∧ (∃ i : Nat, pr1.ReviewersIDs[i]? = some "u3"
            ∧ (∀ j : Nat, j < i → pr1.ReviewersIDs[j]? ≠ some "u3")
            ∧ ["u2", "u4"][i]? = some "u4"
            ∧ ∀ j : Nat, j ≠ i → ["u2", "u4"][j]? = pr1.ReviewersIDs[j]?)
        ∧ pr1.ID = pr1.ID ∧ pr1.Name = pr1.Name ∧ pr1.AuthorID = pr1.AuthorID
        ∧ pr1.Status = pr1.Status ∧ pr1.Status = PullRequestStatusOpen
        ∧ (ReassignReviewer memStores oneRnd backend4WithPR "pr-1" "u3").calls.filter
            Call.isPRUpdate = [Call.prUpdate { pr1 with ReviewersIDs := ["u2", "u4"] }]
        ∧ (ReassignReviewer memStores oneRnd backend4WithPR "pr-1" "u3").state
            = (memStores.prUpdate backend4WithPR { pr1 with ReviewersIDs := ["u2", "u4"] }).2) :=
  ⟨by decide, by decide,
    ReassignReviewer_replaces_in_place memStores oneRnd backend4WithPR "pr-1" "u3" pr1
      { pr1 with ReviewersIDs := ["u2", "u4"] } "u4" (by decide) (by decide)⟩

/-! ## Candidate pool of `ReassignReviewer` -/

theorem reassignCandidates_mem (cands : List User) (pr : PullRequest) (old : String)
    (u : User) (h : u ∈ reassignCandidates cands pr old) :
    u ∈ cands ∧ u.ID ≠ old ∧ u.ID ∉ pr.ReviewersIDs ∧ u.IsActive = true := by
  unfold reassignCandidates at h
  rw [List.mem_filter] at h
  obtain ⟨h1, h2⟩ := h
  simp [User.CanBeReviewer] at h2
  exact ⟨h1, h2.1.1, h2.1.2, h2.2⟩

theorem mem_replaceFirst (old new x : String) :
    ∀ l : List String, x ∈ replaceFirst old new l → x = new ∨ x ∈ l := by
  intro l
  induction l with
  | nil => intro h; simp [replaceFirst] at h
  | cons r rs ih =>
    intro h
    by_cases hr : r = old
    · simp [replaceFirst, hr] at h
      rcases h with h | h
      · exact Or.inl h
      · exact Or.inr (List.mem_cons_of_mem _ h)
    · simp [replaceFirst, hr] at h
      rcases h with h | h
      · exact Or.inr (by simp [h])
      · rcases ih h with h1 | h1
        · exact Or.inl h1
        · exact Or.inr (List.mem_cons_of_mem _ h1)

theorem replaceFirst_nodup (old new : String) (hne : new ≠ old) :
    ∀ l : List String, l.Nodup → new ∉ l → old ∈ l →
      (replaceFirst old new l).Nodup ∧ new ∈ replaceFirst old new l
        ∧ old ∉ replaceFirst old new l := by
  intro l
  induction l with
  | nil => intro _ _ h; simp at h
  | cons r rs ih =>
    intro hnd hnew hold
    rw [List.nodup_cons] at hnd
    obtain ⟨hr, hrs⟩ := hnd
    have hnew1 : new ≠ r := fun h => hnew (by simp [h])
    have hnew2 : new ∉ rs := fun h => hnew (List.mem_cons_of_mem _ h)
    by_cases hro : r = old
    · subst hro
      simp only [replaceFirst, beq_self_eq_true, if_true]
      refine ⟨List.nodup_cons.mpr ⟨hnew2, hrs⟩, by simp, ?_⟩
      intro h
      rcases List.mem_cons.mp h with h1 | h1
      · exact hne h1.symm
      · exact hr h1
    · have hold1 : old ∈ rs := by
        rcases List.mem_cons.mp hold with h1 | h1
        · exact absurd h1.symm hro
        · exact h1
      obtain ⟨h1, h2, h3⟩ := ih hrs hnew2 hold1
      have hrep : replaceFirst old new (r :: rs) = r :: replaceFirst old new rs := by
        simp [replaceFirst, hro]
      rw [hrep]
      refine ⟨List.nodup_cons.mpr ⟨?_, h1⟩, List.mem_cons_of_mem _ h2, ?_⟩
      · intro h
        rcases mem_replaceFirst old new r rs h with h4 | h4
        · exact hnew1 h4.symm
        · exact hr h4
      · intro h
        rcases List.mem_cons.mp h with h4 | h4
        · exact hro h4.symm
        · exact h3 h4

/-! ## Further claims about `ReassignReviewer` -/

/-- C11: when `ReassignReviewer` succeeds, for every random source the new
reviewer is a user that `GetActiveByTeamName` returned for the old reviewer's
team, with the active flag true, whose id is the returned new id and differs
from `oldReviewerID` and from every id of the reviewer list before the call. -/
theorem ReassignReviewer_new_reviewer_in_pool {σ : Type} (S : Stores σ) (rnd : Nat → Nat)
    (st : σ) (prID oldReviewerID : String) (pr updated : PullRequest) (newID : String)
    (oldReviewer : User) (cands : List User)
    (hget : S.prGetByID st prID = (some pr, none))
    (hU : S.userGetByID st oldReviewerID = (some oldReviewer, none))
    (hC : S.userGetActiveByTeamName st oldReviewer.TeamName = (cands, none))
    (hok : (ReassignReviewer S rnd st prID oldReviewerID).result = .ok (updated, newID)) :
    ∃ u ∈ cands, u.ID = newID ∧ u.IsActive = true ∧ newID ≠ oldReviewerID
      ∧ newID ∉ pr.ReviewersIDs ∧ u ∈ reassignCandidates cands pr oldReviewerID := by
  obtain ⟨pr0, oldReviewer0, cands0, newReviewer, st1, hG, -, -, hU0, hC0, hN, hnew, -, -, -,
    -⟩ := ReassignReviewer_ok_inv S rnd st prID oldReviewerID updated newID hok
  rw [hget] at hG
  obtain rfl : pr = pr0 := by simpa using hG
  rw [hU] at hU0
  obtain rfl : oldReviewer = oldReviewer0 := by simpa using hU0
  rw [hC] at hC0
  obtain rfl : cands = cands0 := by simpa using hC0
  have hmem : newReviewer ∈ reassignCandidates cands pr oldReviewerID :=
    List.getElem?_mem hN
  obtain ⟨h1, h2, h3, h4⟩ := reassignCandidates_mem cands pr oldReviewerID newReviewer hmem
  subst hnew
  exact ⟨newReviewer, h1, rfl, h4, h2, h3, hmem⟩

theorem ReassignReviewer_new_reviewer_in_pool_witness :
    memStores.prGetByID backend4WithPR "pr-1" = (some pr1, none)
      ∧ memStores.userGetByID backend4WithPR "u3" = (some charlie, none)
      ∧ memStores.userGetActiveByTeamName backend4WithPR charlie.TeamName
          = ([alice, bob, charlie, david], none)
      ∧ (ReassignReviewer memStores oneRnd backend4WithPR "pr-1" "u3").result
          = .ok ({ pr1 with ReviewersIDs := ["u2", "u4"] }, "u4")
      ∧ ∃ u ∈ [alice, bob, charlie, david], u.ID = "u4" ∧ u.IsActive = true ∧ "u4" ≠ "u3"
          ∧ "u4" ∉ pr1.ReviewersIDs
          ∧ u ∈ reassignCandidates [alice, bob, charlie, david] pr1 "u3" :=
  ⟨by decide, by decide, by decide, by decide,
    ReassignReviewer_new_reviewer_in_pool memStores oneRnd backend4WithPR "pr-1" "u3" pr1
      { pr1 with ReviewersIDs := ["u2", "u4"] } "u4" charlie [alice, bob, charlie, david]
      (by decide) (by decide) (by decide) (by decide)⟩

/-- C12: when `ReassignReviewer` succeeds on a pull request whose reviewer list
has no duplicates, the returned reviewer list has no duplicates, contains the
returned new reviewer id and does not contain `oldReviewerID`. -/
theorem ReassignReviewer_keeps_reviewers_distinct {σ : Type} (S : Stores σ)
    (rnd : Nat → Nat) (st : σ) (prID oldReviewerID : String) (pr updated : PullRequest)
    (newID : String)
    (hget : S.prGetByID st prID = (some pr, none))
    (hnd : pr.ReviewersIDs.Nodup)
    (hok : (ReassignReviewer S rnd st prID oldReviewerID).result = .ok (updated, newID)) :
    updated.ReviewersIDs.Nodup ∧ newID ∈ updated.ReviewersIDs
      ∧ oldReviewerID ∉ updated.ReviewersIDs := by
  obtain ⟨pr0, oldReviewer, cands, newReviewer, st1, hG, -, hhas, -, -, hN, hnew, hupd, -, -,
    -⟩ := ReassignReviewer_ok_inv S rnd st prID oldReviewerID updated newID hok
  rw [hget] at hG
  obtain rfl : pr = pr0 := by simpa using hG
  have hmem : oldReviewerID ∈ pr.ReviewersIDs := by
    simpa [PullRequest.HasReviewer] using hhas
  obtain ⟨-, h2, h3, -⟩ :=
    reassignCandidates_mem cands pr oldReviewerID newReviewer (List.getElem?_mem hN)
  subst hupd
  subst hnew
  exact replaceFirst_nodup oldReviewerID newReviewer.ID h2 pr.ReviewersIDs hnd h3 hmem

theorem ReassignReviewer_keeps_reviewers_distinct_witness :
    memStores.prGetByID backend4WithPR "pr-1" = (some pr1, none)
      ∧ pr1.ReviewersIDs.Nodup
      ∧ (ReassignReviewer memStores oneRnd backend4WithPR "pr-1" "u3").result
          = .ok ({ pr1 with ReviewersIDs := ["u2", "u4"] }, "u4")
      ∧ (["u2", "u4"].Nodup ∧ "u4" ∈ ["u2", "u4"] ∧ "u3" ∉ ["u2", "u4"]) :=
  ⟨by decide, by decide, by decide,
    ReassignReviewer_keeps_reviewers_distinct memStores oneRnd backend4WithPR "pr-1" "u3" pr1
      { pr1 with ReviewersIDs := ["u2", "u4"] } "u4" (by decide) (by decide) (by decide)⟩

theorem HasReviewer_iff_mem (pr : PullRequest) (userID : String) :
    pr.HasReviewer userID = true ↔ userID ∈ pr.ReviewersIDs := by
  simp [PullRequest.HasReviewer]

/-- C13: for an OPEN pull request that the store returns, with stores whose
failures are never the sentinel `NotAssigned`, `ReassignReviewer` fails with
`NotAssigned` if and only if `oldReviewerID` does not occur in the reviewer list
(`HasReviewer` is false); in that case the only store call is the look-up of the
pull request: no call of the user store, no `Update`, state unchanged. -/
theorem ReassignReviewer_not_assigned_iff {σ : Type} (S : Stores σ) (rnd : Nat → Nat)
    (st : σ) (prID oldReviewerID : String) (pr : PullRequest)
    (hget : S.prGetByID st prID = (some pr, none))
    (hopen : pr.Status = PullRequestStatusOpen)
    (hS : ∀ t, (S.userGetActiveByTeamName st t).2 ≠ some .NotAssigned)
    (hUp : ∀ p, (S.prUpdate st p).1 ≠ some .NotAssigned) :
    ((ReassignReviewer S rnd st prID oldReviewerID).result = .fail .NotAssigned
        ↔ oldReviewerID ∉ pr.ReviewersIDs)
      ∧ (pr.HasReviewer oldReviewerID = false ↔ oldReviewerID ∉ pr.ReviewersIDs)
      ∧ (oldReviewerID ∉ pr.ReviewersIDs →
          ReassignReviewer S rnd st prID oldReviewerID
              = ⟨.fail .NotAssigned, st, [Call.prGetByID prID]⟩
            ∧ (ReassignReviewer S rnd st prID oldReviewerID).calls.any Call.isUserStore = false
            ∧ (ReassignReviewer S rnd st prID oldReviewerID).calls.any Call.isPRUpdate
                = false) := by
  have hcan : pr.CanReassign = true := by
    simp [PullRequest.CanReassign, hopen]
  have hfalse : pr.HasReviewer oldReviewerID = false ↔ oldReviewerID ∉ pr.ReviewersIDs := by
    rw [← HasReviewer_iff_mem]; simp
  have hno : oldReviewerID ∉ pr.ReviewersIDs →
      ReassignReviewer S rnd st prID oldReviewerID
        = ⟨.fail .NotAssigned, st, [Call.prGetByID prID]⟩ := by
    intro h
    have hh := hfalse.mpr h
    simp [ReassignReviewer, hget, hcan, hh]
  refine ⟨⟨?_, fun h => by rw [hno h]⟩, hfalse, ?_⟩
  · intro hres hmem
    have hh : pr.HasReviewer oldReviewerID = true := (HasReviewer_iff_mem _ _).mpr hmem
    rcases hu : S.userGetByID st oldReviewerID with ⟨u, e⟩
    cases e with
    | some e => simp [ReassignReviewer, hget, hcan, hh, hu] at hres
    | none =>
      cases u with
      | none => simp [ReassignReviewer, hget, hcan, hh, hu] at hres
      | some u =>
        rcases hc : S.userGetActiveByTeamName st u.TeamName with ⟨cands, e⟩
        have hS1 := hS u.TeamName
        rw [hc] at hS1
        cases e with
        | some e =>
          simp [ReassignReviewer, hget, hcan, hh, hu, hc] at hres
          simp [hres] at hS1
        | none =>
          by_cases hlen : (reassignCandidates cands pr oldReviewerID).length = 0
          · have hnil : reassignCandidates cands pr oldReviewerID = [] :=
              List.length_eq_zero.mp hlen
            simp [ReassignReviewer, hget, hcan, hh, hu, hc, hnil] at hres
          · have hnil : reassignCandidates cands pr oldReviewerID ≠ [] :=
              fun h => hlen (by simp [h])
            simp only [ReassignReviewer, hget, hcan, hh, hu, hc] at hres
            simp only [Bool.not_true, Bool.false_eq_true, if_false, hlen] at hres
            split at hres
            · simp at hres
            · rename_i newReviewer _
              have hU1 := hUp { pr with
                ReviewersIDs := replaceFirst oldReviewerID newReviewer.ID pr.ReviewersIDs }
              split at hres
              · rename_i e st1 hupd
                simp only [Outcome.fail.injEq] at hres
                rw [hupd, hres] at hU1
                exact hU1 rfl
              · simp at hres
  · intro h
    rw [hno h]
    exact ⟨rfl, by simp [Call.isUserStore], by simp [Call.isPRUpdate]⟩

theorem ReassignReviewer_not_assigned_iff_witness :
    memStores.prGetByID backend4WithPR "pr-1" = (some pr1, none)
      ∧ pr1.Status = PullRequestStatusOpen
      ∧ ((ReassignReviewer memStores zeroRnd backend4WithPR "pr-1" "u4").result
            = .fail .NotAssigned ↔ "u4" ∉ pr1.ReviewersIDs)
      ∧ (pr1.HasReviewer "u4" = false ↔ "u4" ∉ pr1.ReviewersIDs)
      ∧ ("u4" ∉ pr1.ReviewersIDs →
          ReassignReviewer memStores zeroRnd backend4WithPR "pr-1" "u4"
              = ⟨.fail .NotAssigned, backend4WithPR, [Call.prGetByID "pr-1"]⟩
            ∧ (ReassignReviewer memStores zeroRnd backend4WithPR "pr-1" "u4").calls.any
                Call.isUserStore = false
            ∧ (ReassignReviewer memStores zeroRnd backend4WithPR "pr-1" "u4").calls.any
                Call.isPRUpdate = false) :=
  ⟨by decide, by decide,
    ReassignReviewer_not_assigned_iff memStores zeroRnd backend4WithPR "pr-1" "u4" pr1
      (by decide) (by decide) (fun _ => by simp [memStores, memUserGetActiveByTeamName])
      (fun _ => by simp [memStores, memPRUpdate])⟩

/-- C14: for an OPEN pull request that lists `oldReviewerID`, whose old reviewer
the user store knows, if every active user returned for the old reviewer's team
is the old reviewer or is already in the reviewer list, `ReassignReviewer` fails
with `NoCandidate` after the three look-ups: no `Update`, state unchanged, and
the store still returns the pull request with the same reviewer list. -/
theorem ReassignReviewer_no_candidate {σ : Type} (S : Stores σ) (rnd : Nat → Nat)
    (st : σ) (prID oldReviewerID : String) (pr : PullRequest) (oldReviewer : User)
    (cands : List User)
    (hget : S.prGetByID st prID = (some pr, none))
    (hopen : pr.Status = PullRequestStatusOpen)
    (hmem : oldReviewerID ∈ pr.ReviewersIDs)
    (hU : S.userGetByID st oldReviewerID = (some oldReviewer, none))
    (hC : S.userGetActiveByTeamName st oldReviewer.TeamName = (cands, none))
    (hall : ∀ u ∈ cands, u.IsActive = true →
      u.ID = oldReviewerID ∨ u.ID ∈ pr.ReviewersIDs) :
    ReassignReviewer S rnd st prID oldReviewerID
        = ⟨.fail .NoCandidate, st,
            [Call.prGetByID prID, Call.userGetByID oldReviewerID,
             Call.userGetActiveByTeamName oldReviewer.TeamName]⟩
      ∧ (ReassignReviewer S rnd st prID oldReviewerID).calls.any Call.isPRUpdate = false
      ∧ S.prGetByID (ReassignReviewer S rnd st prID oldReviewerID).state prID
          = (some pr, none) := by
  have hcan : pr.CanReassign = true := by
    simp [PullRequest.CanReassign, hopen]
  have hh : pr.HasReviewer oldReviewerID = true := (HasReviewer_iff_mem _ _).mpr hmem
  have hnil : reassignCandidates cands pr oldReviewerID = [] := by
    rw [List.eq_nil_iff_forall_not_mem]
    intro u hu
    obtain ⟨h1, h2, h3, h4⟩ := reassignCandidates_mem cands pr oldReviewerID u hu
    rcases hall u h1 h4 with h | h
    · exact h2 h
    · exact h3 h
  have h : ReassignReviewer S rnd st prID oldReviewerID
      = ⟨.fail .NoCandidate, st,
          [Call.prGetByID prID, Call.userGetByID oldReviewerID,
           Call.userGetActiveByTeamName oldReviewer.TeamName]⟩ := by
    simp [ReassignReviewer, hget, hcan, hh, hU, hC, hnil]
  rw [h]
  exact ⟨rfl, by simp [Call.isPRUpdate], hget⟩

theorem ReassignReviewer_no_candidate_witness :
    memStores.prGetByID backendAuthorInactive "pr-1" = (some pr1, none)
      ∧ pr1.Status = PullRequestStatusOpen
      ∧ "u2" ∈ pr1.ReviewersIDs
      ∧ memStores.userGetByID backendAuthorInactive "u2" = (some bob, none)
      ∧ memStores.userGetActiveByTeamName backendAuthorInactive bob.TeamName
          = ([bob, charlie], none)
      ∧ (∀ u ∈ [bob, charlie], u.IsActive = true → u.ID = "u2" ∨ u.ID ∈ pr1.ReviewersIDs)
      ∧ ReassignReviewer memStores zeroRnd backendAuthorInactive "pr-1" "u2"
          = ⟨.fail .NoCandidate, backendAuthorInactive,
              [Call.prGetByID "pr-1", Call.userGetByID "u2",
               Call.userGetActiveByTeamName bob.TeamName]⟩
      ∧ (ReassignReviewer memStores zeroRnd backendAuthorInactive "pr-1" "u2").calls.any
          Call.isPRUpdate = false
      ∧ memStores.prGetByID
          (ReassignReviewer memStores zeroRnd backendAuthorInactive "pr-1" "u2").state "pr-1"
          = (some pr1, none) :=
  ⟨by decide, by decide, by decide, by decide, by decide, by decide,
    ReassignReviewer_no_candidate memStores zeroRnd backendAuthorInactive "pr-1" "u2" pr1 bob
      [bob, charlie] (by decide) (by decide) (by decide) (by decide) (by decide)
      (by decide)⟩

/-- C15 (the code at the failing input): on an OPEN pull request that lists u2,
with a user store whose `GetByID` fails with the storage error "connection
refused" (which is not `NotFound`), `ReassignReviewer("pr-1", "u2")` returns
`NotFound` for every random source, not the storage error. -/
theorem ReassignReviewer_masks_user_store_failure (rnd : Nat → Nat) :
    userLookupDown.prGetByID backend4WithPR "pr-1" = (some pr1, none)
      ∧ pr1.CanReassign = true
      ∧ pr1.HasReviewer "u2" = true
      ∧ userLookupDown.userGetByID backend4WithPR "u2"
          = (none, some (.storage "connection refused"))
      ∧ errorsIs (.storage "connection refused") .NotFound = false
      ∧ ReassignReviewer userLookupDown rnd backend4WithPR "pr-1" "u2"
          = ⟨.fail .NotFound, backend4WithPR,
              [Call.prGetByID "pr-1", Call.userGetByID "u2"]⟩ := by
  refine ⟨by decide, by decide, by decide, by decide, by decide, ?_⟩
  have hget : userLookupDown.prGetByID backend4WithPR "pr-1" = (some pr1, none) := by decide
  have hcan : pr1.CanReassign = true := by decide
  have hh : pr1.HasReviewer "u2" = true := by decide
  have hu : userLookupDown.userGetByID backend4WithPR "u2"
      = (none, some (.storage "connection refused")) := by decide
  simp [ReassignReviewer, hget, hcan, hh, hu]

/-! ## Claims about `CreateTeam` and `SetUserActive` -/

/-- C16: if the team store's `GetByName` returns a team, `CreateTeam` fails with
`TeamExists` after that single look-up (no `Create`, state unchanged); if
`GetByName` reports `NotFound`, the call makes exactly one `Create`, with the
team of the given name and members, and returns what `Create` returned. -/
theorem CreateTeam_exists_or_creates {σ : Type} (S : Stores σ) (st : σ) (name : String)
    (members : List User) :
    (∀ existing, S.teamGetByName st name = (some existing, none) →
        CreateTeam S st name members = ⟨.fail .TeamExists, st, [Call.teamGetByName name]⟩
          ∧ (CreateTeam S st name members).calls.any Call.isTeamCreate = false)
      ∧ (∀ x, S.teamGetByName st name = (x, some .NotFound) →
          (CreateTeam S st name members).calls
              = [Call.teamGetByName name,
                 Call.teamCreate { Name := name, Members := members }]
            ∧ (CreateTeam S st name members).calls.filter Call.isTeamCreate
                = [Call.teamCreate { Name := name, Members := members }]
            ∧ ((S.teamCreate st { Name := name, Members := members }).1 = none →
                (CreateTeam S st name members).result = .ok ())
            ∧ (∀ e, (S.teamCreate st { Name := name, Members := members }).1 = some e →
                (CreateTeam S st name members).result = .fail e)
            ∧ (CreateTeam S st name members).state
                = (S.teamCreate st { Name := name, Members := members }).2) := by
  constructor
  · intro existing hG
    have h : CreateTeam S st name members
        = ⟨.fail .TeamExists, st, [Call.teamGetByName name]⟩ := by
      simp [CreateTeam, hG]
    rw [h]
    exact ⟨rfl, by simp [Call.isTeamCreate]⟩
  · intro x hG
    rcases hc : S.teamCreate st { Name := name, Members := members } with ⟨e, st1⟩
    cases e <;> simp [CreateTeam, hG, hc, Call.isTeamCreate]

theorem CreateTeam_exists_or_creates_witness :
    memStores.teamGetByName backend3 "backend"
        = (some { Name := "backend", Members := [alice, bob, charlie] }, none)
      ∧ (CreateTeam memStores backend3 "backend" [alice]
            = ⟨.fail .TeamExists, backend3, [Call.teamGetByName "backend"]⟩
          ∧ (CreateTeam memStores backend3 "backend" [alice]).calls.any Call.isTeamCreate
              = false)
      ∧ memStores.teamGetByName backend3 "frontend" = (none, some .NotFound)
      ∧ ((CreateTeam memStores backend3 "frontend" frontendMembers).calls
            = [Call.teamGetByName "frontend",
               Call.teamCreate { Name := "frontend", Members := frontendMembers }]
          ∧ (CreateTeam memStores backend3 "frontend" frontendMembers).calls.filter
              Call.isTeamCreate
              = [Call.teamCreate { Name := "frontend", Members := frontendMembers }]
          ∧ ((memStores.teamCreate backend3
                { Name := "frontend", Members := frontendMembers }).1 = none →
              (CreateTeam memStores backend3 "frontend" frontendMembers).result = .ok ())
          ∧ (∀ e, (memStores.teamCreate backend3
                { Name := "frontend", Members := frontendMembers }).1 = some e →
              (CreateTeam memStores backend3 "frontend" frontendMembers).result = .fail e)
          ∧ (CreateTeam memStores backend3 "frontend" frontendMembers).state
              = (memStores.teamCreate backend3
                  { Name := "frontend", Members := frontendMembers }).2) :=
  ⟨by decide,
    (CreateTeam_exists_or_creates memStores backend3 "backend" [alice]).1
      { Name := "backend", Members := [alice, bob, charlie] } (by decide),
    by decide,
    (CreateTeam_exists_or_creates memStores backend3 "frontend" frontendMembers).2 none
      (by decide)⟩

/-- C17 (the code at the failing input): with a team store whose `GetByName`
fails with the storage error "connection refused" (not `NotFound`) while
`Create` works, `CreateTeam` does not return that error: it calls `Create`
with the team, changes the store and returns success. -/
theorem CreateTeam_drops_lookup_failure :
    teamLookupDown.teamGetByName backend3 "frontend"
        = (none, some (.storage "connection refused"))
      ∧ errorsIs (.storage "connection refused") .NotFound = false
      ∧ (CreateTeam teamLookupDown backend3 "frontend" frontendMembers).result = .ok ()
      ∧ (CreateTeam teamLookupDown backend3 "frontend" frontendMembers).calls
          = [Call.teamGetByName "frontend",
             Call.teamCreate { Name := "frontend", Members := frontendMembers }]
      ∧ (CreateTeam teamLookupDown backend3 "frontend" frontendMembers).state
          = { backend3 with
              teams := ["backend", "frontend"]
              users := [alice, bob, charlie] ++ frontendMembers } := by
  refine ⟨by decide, by decide, by decide, by decide, by decide⟩

/-- C18: if the user store reports `NotFound`, `SetUserActive` fails with
`NotFound` after the single look-up (no `Update`, state unchanged); if the store
returns a user, the call makes exactly one `Update`, with a user whose `IsActive`
is `isActive` and whose `ID`, `Username` and `TeamName` are those of the stored
user; that user is the only one the call can return and is returned whenever
`Update` succeeds. -/
theorem SetUserActive_absent_or_updates {σ : Type} (S : Stores σ) (st : σ)
    (userID : String) (isActive : Bool) :
    (∀ x, S.userGetByID st userID = (x, some .NotFound) →
        SetUserActive S st userID isActive
            = ⟨.fail .NotFound, st, [Call.userGetByID userID]⟩
          ∧ (SetUserActive S st userID isActive).calls.any Call.isUserUpdate = false)
      ∧ (∀ user, S.userGetByID st userID = (some user, none) →
          ∃ updated : User,
            (SetUserActive S st userID isActive).calls
                = [Call.userGetByID userID, Call.userUpdate updated]
              ∧ updated.IsActive = isActive
              ∧ updated.ID = user.ID ∧ updated.Username = user.Username
              ∧ updated.TeamName = user.TeamName
              ∧ (∀ u, (SetUserActive S st userID isActive).result = .ok u → u = updated)
              ∧ ((S.userUpdate st updated).1 = none →
                  (SetUserActive S st userID isActive).result = .ok updated)
              ∧ (SetUserActive S st userID isActive).state = (S.userUpdate st updated).2) := by
  constructor
  · intro x hG
    have h : SetUserActive S st userID isActive
        = ⟨.fail .NotFound, st, [Call.userGetByID userID]⟩ := by
      simp [SetUserActive, hG]
    rw [h]
    exact ⟨rfl, by simp [Call.isUserUpdate]⟩
  · intro user hG
    refine ⟨{ user with IsActive := isActive }, ?_, rfl, rfl, rfl, rfl, ?_, ?_, ?_⟩
    · rcases hu : S.userUpdate st { user with IsActive := isActive } with ⟨e, st1⟩
      cases e <;> simp [SetUserActive, hG, hu]
    · intro u hres
      rcases hu : S.userUpdate st { user with IsActive := isActive } with ⟨e, st1⟩
      cases e with
      | none =>
        simp [SetUserActive, hG, hu] at hres
        exact hres.symm
      | some e => simp [SetUserActive, hG, hu] at hres
    · intro hnone
      rcases hu : S.userUpdate st { user with IsActive := isActive } with ⟨e, st1⟩
      rw [hu] at hnone
      simp only at hnone
      subst hnone
      simp [SetUserActive, hG, hu]
    · rcases hu : S.userUpdate st { user with IsActive := isActive } with ⟨e, st1⟩
      cases e <;> simp [SetUserActive, hG, hu]

theorem SetUserActive_absent_or_updates_witness :
    memStores.userGetByID backend3 "nobody" = (none, some .NotFound)
      ∧ (SetUserActive memStores backend3 "nobody" false
            = ⟨.fail .NotFound, backend3, [Call.userGetByID "nobody"]⟩
          ∧ (SetUserActive memStores backend3 "nobody" false).calls.any Call.isUserUpdate
              = false)
      ∧ memStores.userGetByID backend3 "u2" = (some bob, none)
      ∧ ∃ updated : User,
          (SetUserActive memStores backend3 "u2" false).calls
              = [Call.userGetByID "u2", Call.userUpdate updated]
            ∧ updated.IsActive = false
            ∧ updated.ID = bob.ID ∧ updated.Username = bob.Username
            ∧ updated.TeamName = bob.TeamName
            ∧ (∀ u, (SetUserActive memStores backend3 "u2" false).result = .ok u →
                u = updated)
            ∧ ((memStores.userUpdate backend3 updated).1 = none →
                (SetUserActive memStores backend3 "u2" false).result = .ok updated)
            ∧ (SetUserActive memStores backend3 "u2" false).state
                = (memStores.userUpdate backend3 updated).2 :=
  ⟨by decide,
    (SetUserActive_absent_or_updates memStores backend3 "nobody" false).1 none (by decide),
    by decide,
    (SetUserActive_absent_or_updates memStores backend3 "u2" false).2 bob (by decide)⟩

/-! ## Which store state a service call leaves behind -/

theorem CreatePR_state_cases {σ : Type} (S : Stores σ) (rnd : Nat → Nat) (st : σ)
    (prID name authorID : String) :
    (CreatePR S rnd st prID name authorID).state = st
      ∨ ∃ pr, (CreatePR S rnd st prID name authorID).state = (S.prCreate st pr).2 := by
  unfold CreatePR
  split
  · exact Or.inl rfl
  · split
    · exact Or.inl rfl
    · split
      · exact Or.inl rfl
      · exact Or.inl rfl
      · split
        · exact Or.inl rfl
        · dsimp only
          split
          · rename_i h
            exact Or.inr ⟨_, by rw [h]⟩
          · rename_i h
            exact Or.inr ⟨_, by rw [h]⟩

theorem MergePR_state_cases {σ : Type} (S : Stores σ) (st : σ) (prID : String) :
    (MergePR S st prID).state = st
      ∨ ∃ pr, S.prGetByID st prID = (some pr, none) ∧ pr.IsMerged = false
          ∧ (MergePR S st prID).state
              = (S.prUpdate st { pr with Status := PullRequestStatusMerged }).2 := by
  unfold MergePR
  split
  · exact Or.inl rfl
  · exact Or.inl rfl
  · rename_i pr hget
    by_cases hm : pr.IsMerged = true
    · simp [hm]
    · have hm1 : pr.IsMerged = false := by simpa using hm
      refine Or.inr ⟨pr, by assumption, hm1, ?_⟩
      simp only [hm1, Bool.false_eq_true, if_false]
      split <;> (rename_i h; rw [h])

theorem ReassignReviewer_state_cases {σ : Type} (S : Stores σ) (rnd : Nat → Nat) (st : σ)
    (prID oldReviewerID : String) :
    (ReassignReviewer S rnd st prID oldReviewerID).state = st
      ∨ ∃ pr newID, S.prGetByID st prID = (some pr, none) ∧ pr.CanReassign = true
          ∧ (ReassignReviewer S rnd st prID oldReviewerID).state
              = (S.prUpdate st
                  { pr with
                    ReviewersIDs := replaceFirst oldReviewerID newID pr.ReviewersIDs }).2 := by
  unfold ReassignReviewer
  split
  · exact Or.inl rfl
  · exact Or.inl rfl
  · rename_i pr hget
    by_cases hcan : pr.CanReassign = true
    · simp only [hcan, Bool.not_true, Bool.false_eq_true, if_false]
      split
      · exact Or.inl rfl
      · split
        · exact Or.inl rfl
        · exact Or.inl rfl
        · split
          · exact Or.inl rfl
          · split
            · exact Or.inl rfl
            · split
              · exact Or.inl rfl
              · rename_i newReviewer _
                refine Or.inr ⟨pr, newReviewer.ID, by assumption, hcan, ?_⟩
                split <;> (rename_i h; rw [h])
    · have hcan1 : pr.CanReassign = false := by simpa using hcan
      simp [hcan1]

/-! ## A merged pull request stays as it is -/

theorem memPRGetByID_eq_some_iff (st : MemStore) (id : String) (pr : PullRequest) :
    memStores.prGetByID st id = (some pr, none)
      ↔ st.prs.find? (fun p => p.ID == id) = some pr := by
  show memPRGetByID st id = (some pr, none) ↔ _
  unfold memPRGetByID
  split <;> rename_i h <;> simp [h]

theorem find?_map_of_fixed {α : Type} (p : α → Bool) (f : α → α)
    (hp : ∀ a, p (f a) = p a) (hf : ∀ a, p a = true → f a = a) :
    ∀ l : List α, (l.map f).find? p = l.find? p := by
  intro l
  induction l with
  | nil => rfl
  | cons a l ih =>
    rw [List.map_cons, List.find?_cons, List.find?_cons, hp a]
    cases h : p a with
    | true => simp [hf a h]
    | false => simpa using ih

theorem memPRUpdate_keeps_other (st : MemStore) (q : PullRequest) (id : String)
    (hne : q.ID ≠ id) :
    (memStores.prUpdate st q).2.prs.find? (fun p => p.ID == id)
      = st.prs.find? (fun p => p.ID == id) := by
  show (memPRUpdate st q).2.prs.find? _ = _
  unfold memPRUpdate
  apply find?_map_of_fixed
  · intro a
    by_cases h : a.ID = q.ID <;> simp [h]
  · intro a ha
    have ha1 : a.ID = id := by simpa using ha
    have h : a.ID ≠ q.ID := fun h => hne (h.symm.trans ha1)
    simp [h]

theorem memPRCreate_keeps_found (st : MemStore) (q : PullRequest) (id : String)
    (pr : PullRequest) (hfind : st.prs.find? (fun p => p.ID == id) = some pr) :
    (memStores.prCreate st q).2.prs.find? (fun p => p.ID == id) = some pr := by
  show (memPRCreate st q).2.prs.find? _ = _
  unfold memPRCreate
  split
  · exact hfind
  · simp [hfind]

theorem CreateTeam_mem_prs (st : MemStore) (name : String) (members : List User) :
    (CreateTeam memStores st name members).state.prs = st.prs := by
  unfold CreateTeam
  split
  · rfl
  · dsimp only
    split
    · rename_i h; simp [memStores, memTeamCreate] at h
    · rename_i h; simp [memStores, memTeamCreate] at h; subst h; rfl

theorem SetUserActive_mem_prs (st : MemStore) (userID : String) (isActive : Bool) :
    (SetUserActive memStores st userID isActive).state.prs = st.prs := by
  unfold SetUserActive
  split
  · rfl
  · rfl
  · dsimp only
    split
    · rename_i h; simp [memStores, memUserUpdate] at h
    · rename_i h; simp [memStores, memUserUpdate] at h; subst h; rfl

/-- One service call keeps what the PR store returns for a merged pull request. -/
theorem stepOp_keeps_merged (st : MemStore) (op : Op) (id : String) (pr : PullRequest)
    (hfind : st.prs.find? (fun p => p.ID == id) = some pr)
    (hm : pr.Status = PullRequestStatusMerged) :
    (stepOp st op).prs.find? (fun p => p.ID == id) = some pr := by
  have hid : pr.ID = id := by simpa using List.find?_some hfind
  cases op with
  | createTeam name members =>
    show (CreateTeam memStores st name members).state.prs.find? _ = _
    rw [CreateTeam_mem_prs]; exact hfind
  | getTeam name =>
    show (GetTeam memStores st name).state.prs.find? _ = _
    unfold GetTeam
    split <;> exact hfind
  | setUserActive userID isActive =>
    show (SetUserActive memStores st userID isActive).state.prs.find? _ = _
    rw [SetUserActive_mem_prs]; exact hfind
  | createPR rnd prID name authorID =>
    show (CreatePR memStores rnd st prID name authorID).state.prs.find? _ = _
    rcases CreatePR_state_cases memStores rnd st prID name authorID with h | ⟨q, h⟩
    · rw [h]; exact hfind
    · rw [h]; exact memPRCreate_keeps_found st q id pr hfind
  | mergePR prID =>
    show (MergePR memStores st prID).state.prs.find? _ = _
    rcases MergePR_state_cases memStores st prID with h | ⟨pr0, hget, hnm, h⟩
    · rw [h]; exact hfind
    · rw [h, memPRUpdate_keeps_other]
      · exact hfind
      · intro hq
        have hfind0 := (memPRGetByID_eq_some_iff st prID pr0).mp hget
        have hid0 : pr0.ID = prID := by simpa using List.find?_some hfind0
        have hsame : prID = id := hid0.symm.trans hq
        rw [hsame, hfind] at hfind0
        obtain rfl : pr = pr0 := by simpa using hfind0
        simp [PullRequest.IsMerged, hm] at hnm
  | reassignReviewer rnd prID oldReviewerID =>
    show (ReassignReviewer memStores rnd st prID oldReviewerID).state.prs.find? _ = _
    rcases ReassignReviewer_state_cases memStores rnd st prID oldReviewerID with
      h | ⟨pr0, newID, hget, hcan, h⟩
    · rw [h]; exact hfind
    · rw [h, memPRUpdate_keeps_other]
      · exact hfind
      · intro hq
        have hfind0 := (memPRGetByID_eq_some_iff st prID pr0).mp hget
        have hid0 : pr0.ID = prID := by simpa using List.find?_some hfind0
        have hsame : prID = id := hid0.symm.trans hq
        rw [hsame, hfind] at hfind0
        obtain rfl : pr = pr0 := by simpa using hfind0
        simp [PullRequest.CanReassign, hm, PullRequestStatusOpen,
          PullRequestStatusMerged] at hcan
  | getUserReviews userID =>
    show (GetUserReviews memStores st userID).state.prs.find? _ = _
    unfold GetUserReviews
    split
    · exact hfind
    · dsimp only
      split <;> exact hfind
  | getStatistics =>
    show (GetStatistics memStores st).state.prs.find? _ = _
    unfold GetStatistics
    split <;> exact hfind

/-- C19: on the in-memory stores, once the PR store returns a pull request with
status MERGED for an id, it returns the very same pull request (so the same
status MERGED and the same reviewer list) after every sequence of service calls
`CreateTeam`, `GetTeam`, `SetUserActive`, `CreatePR`, `MergePR`,
`ReassignReviewer`, `GetUserReviews`, `GetStatistics`, with any arguments and any
random sources. -/
theorem merged_pr_is_immutable (ops : List Op) (st : MemStore) (id : String)
    (pr : PullRequest)
    (hget : memStores.prGetByID st id = (some pr, none))
    (hm : pr.Status = PullRequestStatusMerged) :
    memStores.prGetByID (runOps st ops) id = (some pr, none)
      ∧ ∃ stored, memStores.prGetByID (runOps st ops) id = (some stored, none)
          ∧ stored.Status = PullRequestStatusMerged
          ∧ stored.ReviewersIDs = pr.ReviewersIDs := by
  have hkeep : ∀ (ops : List Op) (st : MemStore),
      st.prs.find? (fun p => p.ID == id) = some pr →
      (runOps st ops).prs.find? (fun p => p.ID == id) = some pr := by
    intro ops
    induction ops with
    | nil => intro st h; exact h
    | cons op ops ih =>
      intro st h
      exact ih (stepOp st op) (stepOp_keeps_merged st op id pr h hm)
  have h := (memPRGetByID_eq_some_iff _ id pr).mpr
    (hkeep ops st ((memPRGetByID_eq_some_iff st id pr).mp hget))
  exact ⟨h, pr, h, hm, rfl⟩

theorem merged_pr_is_immutable_witness :
    memStores.prGetByID backend3Merged "pr-1"
        = (some { pr1 with Status := PullRequestStatusMerged }, none)
      ∧ (memStores.prGetByID (runOps backend3Merged opsAfterMerge) "pr-1"
            = (some { pr1 with Status := PullRequestStatusMerged }, none)
          ∧ ∃ stored, memStores.prGetByID (runOps backend3Merged opsAfterMerge) "pr-1"
                = (some stored, none)
              ∧ stored.Status = PullRequestStatusMerged
              ∧ stored.ReviewersIDs = pr1.ReviewersIDs) :=
  ⟨by decide,
    merged_pr_is_immutable opsAfterMerge backend3Merged "pr-1"
      { pr1 with Status := PullRequestStatusMerged } (by decide) (by decide)⟩

/-! ## Claims about `mapErrorToCode` -/

/-- A domain error keeps its code when it is wrapped, since every case of the
`switch` is tested with `errors.Is`. -/
theorem mapErrorToCode_wrapped_notFound (msg : String) :
    mapErrorToCode (.wrap msg .NotFound) = ("NOT_FOUND", true) := by
  simp [mapErrorToCode, errorsIs]

/-- C20: `mapErrorToCode` maps each of the six domain errors to its fixed code
with `ok = true`, and returns `("", false)` for every error that is none of the
six, where an error is one of them in the sense of `errors.Is`, as the `switch`
tests it; in particular every plain storage error gets `("", false)`, and
`ok` is false exactly for the errors that are none of the six. -/
theorem mapErrorToCode_table :
    mapErrorToCode .TeamExists = ("TEAM_EXISTS", true)
      ∧ mapErrorToCode .PRExists = ("PR_EXISTS", true)
      ∧ mapErrorToCode .PRMerged = ("PR_MERGED", true)
      ∧ mapErrorToCode .NotAssigned = ("NOT_ASSIGNED", true)
      ∧ mapErrorToCode .NoCandidate = ("NO_CANDIDATE", true)
      ∧ mapErrorToCode .NotFound = ("NOT_FOUND", true)
      ∧ (∀ e : Err,
          errorsIs e .TeamExists = false → errorsIs e .PRExists = false →
          errorsIs e .PRMerged = false → errorsIs e .NotAssigned = false →
          errorsIs e .NoCandidate = false → errorsIs e .NotFound = false →
          mapErrorToCode e = ("", false))
      ∧ (∀ msg : String, mapErrorToCode (.storage msg) = ("", false))
      ∧ (∀ e : Err, (mapErrorToCode e).2 = false ↔
          (errorsIs e .TeamExists = false ∧ errorsIs e .PRExists = false
            ∧ errorsIs e .PRMerged = false ∧ errorsIs e .NotAssigned = false
            ∧ errorsIs e .NoCandidate = false ∧ errorsIs e .NotFound = false)) := by
  refine ⟨by decide, by decide, by decide, by decide, by decide, by decide, ?_, ?_, ?_⟩
  · intro e h1 h2 h3 h4 h5 h6
    simp [mapErrorToCode, h1, h2, h3, h4, h5, h6]
  · intro msg
    simp [mapErrorToCode, errorsIs]
  · intro e
    unfold mapErrorToCode
    cases h1 : errorsIs e .TeamExists <;> cases h2 : errorsIs e .PRExists
      <;> cases h3 : errorsIs e .PRMerged <;> cases h4 : errorsIs e .NotAssigned
      <;> cases h5 : errorsIs e .NoCandidate <;> cases h6 : errorsIs e .NotFound
      <;> simp

theorem mapErrorToCode_table_witness :
    errorsIs (.storage "connection refused") .TeamExists = false
      ∧ errorsIs (.storage "connection refused") .PRExists = false
      ∧ errorsIs (.storage "connection refused") .PRMerged = false
      ∧ errorsIs (.storage "connection refused") .NotAssigned = false
      ∧ errorsIs (.storage "connection refused") .NoCandidate = false
      ∧ errorsIs (.storage "connection refused") .NotFound = false
      ∧ mapErrorToCode (.storage "connection refused") = ("", false) :=
  ⟨by decide, by decide, by decide, by decide, by decide, by decide,
    mapErrorToCode_table.2.2.2.2.2.2.1 (.storage "connection refused") (by decide)
      (by decide) (by decide) (by decide) (by decide) (by decide)⟩

/-! ## Claims about `statisticsToDTO` -/

theorem wrapInt_add_wrapInt (a b : Int) : wrapInt (wrapInt a + b) = wrapInt (a + b) := by
  unfold wrapInt
  omega

theorem wrapInt_wrapInt (a : Int) : wrapInt (wrapInt a) = wrapInt a := by
  unfold wrapInt
  omega

theorem wrapInt_of_fits (a : Int) (h1 : -9223372036854775808 ≤ a)
    (h2 : a < 9223372036854775808) : wrapInt a = a := by
  unfold wrapInt
  omega

/-- The loop of `statisticsToDTO` from any accumulator whose total is an `int`:
the entries are appended in order and the total is the wrapped sum. -/
theorem statisticsToDTO_loop :
    ∀ (stats : List (String × Int)) (acc : List UserStatisticDTO) (total : Int),
      wrapInt total = total →
      stats.foldl
          (fun (acc : List UserStatisticDTO × Int) (entry : String × Int) =>
            (acc.1 ++ [{ UserID := entry.1, AssignmentsCount := entry.2 }],
              addInt acc.2 entry.2))
          (acc, total)
        = (acc ++ stats.map (fun entry => { UserID := entry.1, AssignmentsCount := entry.2 }),
            wrapInt (total + (stats.map Prod.snd).sum)) := by
  intro stats
  induction stats with
  | nil => intro acc total h; simp [h]
  | cons entry rest ih =>
    intro acc total h
    refine (ih (acc ++ [{ UserID := entry.1, AssignmentsCount := entry.2 }])
      (addInt total entry.2) (wrapInt_wrapInt _)).trans ?_
    simp only [addInt, wrapInt_add_wrapInt, List.map_cons, List.sum_cons, List.append_assoc,
      List.singleton_append, Int.add_assoc]

theorem statisticsToDTO_eq (stats : List (String × Int)) :
    statisticsToDTO stats
      = { ByUsers := stats.map (fun entry =>
            { UserID := entry.1, AssignmentsCount := entry.2 }),
          TotalAssignments := wrapInt ((stats.map Prod.snd).sum) } := by
  unfold statisticsToDTO
  rw [statisticsToDTO_loop stats [] 0 (by decide)]
  simp

/-- C21 (counterexample): for the map with counts 2^63 - 1 and 1, both values of
Go `int`, `statisticsToDTO` returns the total -2^63, which is not the sum 2^63
of the counts. -/
theorem statisticsToDTO_total_overflows :
    (statisticsToDTO overflowStats).TotalAssignments = -9223372036854775808
      ∧ (overflowStats.map Prod.snd).sum = 9223372036854775808
      ∧ (statisticsToDTO overflowStats).TotalAssignments
          ≠ (overflowStats.map Prod.snd).sum := by
  decide

/-- C21 (amended): for every statistics map, given as its entries in iteration
order, whose counts sum to a value of Go `int` (64 bits), `statisticsToDTO`
returns `total_assignments` equal to the sum of all counts and a `by_users` list
that holds, in that order, the entry of each map key and nothing else, so one
entry per key for pairwise distinct keys; a single user with count 2 yields that
user's count 2 and total 2. -/
theorem statisticsToDTO_entries_and_total (stats : List (String × Int))
    (hlow : -9223372036854775808 ≤ (stats.map Prod.snd).sum)
    (hhigh : (stats.map Prod.snd).sum < 9223372036854775808) :
    (statisticsToDTO stats).TotalAssignments = (stats.map Prod.snd).sum
      ∧ (statisticsToDTO stats).ByUsers.map (fun e => (e.UserID, e.AssignmentsCount)) = stats
      ∧ (statisticsToDTO stats).ByUsers.length = stats.length
      ∧ ((stats.map Prod.fst).Nodup →
          ((statisticsToDTO stats).ByUsers.map (fun e => e.UserID)).Nodup)
      ∧ (∀ user : String, statisticsToDTO [(user, 2)]
          = { ByUsers := [{ UserID := user, AssignmentsCount := 2 }],
              TotalAssignments := 2 }) := by
  rw [statisticsToDTO_eq]
  refine ⟨wrapInt_of_fits _ hlow hhigh, ?_, by simp, ?_, ?_⟩
  · simp [List.map_map, Function.comp_def]
  · intro hnd
    simpa [List.map_map, Function.comp_def] using hnd
  · intro user
    rw [statisticsToDTO_eq]
    simp [wrapInt]

theorem statisticsToDTO_entries_and_total_witness :
    -9223372036854775808 ≤ ([("u2", (2 : Int))].map Prod.snd).sum
      ∧ ([("u2", (2 : Int))].map Prod.snd).sum < 9223372036854775808
      ∧ ((statisticsToDTO [("u2", 2)]).TotalAssignments = ([("u2", (2 : Int))].map Prod.snd).sum
        ∧ (statisticsToDTO [("u2", 2)]).ByUsers.map (fun e => (e.UserID, e.AssignmentsCount))
            = [("u2", 2)]
        ∧ (statisticsToDTO [("u2", 2)]).ByUsers.length = [("u2", (2 : Int))].length
        ∧ (([("u2", (2 : Int))].map Prod.fst).Nodup →
            ((statisticsToDTO [("u2", 2)]).ByUsers.map (fun e => e.UserID)).Nodup)
        ∧ (∀ user : String, statisticsToDTO [(user, 2)]
            = { ByUsers := [{ UserID := user, AssignmentsCount := 2 }],
                TotalAssignments := 2 })) :=
  ⟨by decide, by decide,
    statisticsToDTO_entries_and_total [("u2", 2)] (by decide) (by decide)⟩

/-! ## Claims about the predicates of models.go -/

/-- C22 (counterexample): for a pull request whose status is the empty string,
the zero value of `PullRequestStatus`, neither `CanReassign` nor `IsMerged`
holds, so it is not the case that exactly one of them holds. -/
theorem zero_status_neither_open_nor_merged :
    zeroStatusPR.CanReassign = false ∧ zeroStatusPR.IsMerged = false
      ∧ ¬ ((zeroStatusPR.CanReassign = true ∧ zeroStatusPR.IsMerged = false)
            ∨ (zeroStatusPR.CanReassign = false ∧ zeroStatusPR.IsMerged = true))
      ∧ prToDTO (some zeroStatusPR) = .error .InvalidStatus := by
  refine ⟨by decide, by decide, by decide, rfl⟩

/-- C22 (amended): for every pull request, `CanReassign` is true if and only if
the status is OPEN and `IsMerged` is true if and only if the status is MERGED;
the two never hold together, and exactly one of them holds if and only if the
status is OPEN or MERGED. -/
theorem CanReassign_IsMerged_spec (pr : PullRequest) :
    (pr.CanReassign = true ↔ pr.Status = PullRequestStatusOpen)
      ∧ (pr.IsMerged = true ↔ pr.Status = PullRequestStatusMerged)
      ∧ ¬ (pr.CanReassign = true ∧ pr.IsMerged = true)
      ∧ (((pr.CanReassign = true ∧ pr.IsMerged = false)
            ∨ (pr.CanReassign = false ∧ pr.IsMerged = true))
          ↔ (pr.Status = PullRequestStatusOpen ∨ pr.Status = PullRequestStatusMerged)) := by
  have h1 : pr.CanReassign = true ↔ pr.Status = PullRequestStatusOpen := by
    simp [PullRequest.CanReassign]
  have h2 : pr.IsMerged = true ↔ pr.Status = PullRequestStatusMerged := by
    simp [PullRequest.IsMerged]
  have hne : PullRequestStatusOpen ≠ PullRequestStatusMerged := by decide
  refine ⟨h1, h2, ?_, ?_⟩
  · rintro ⟨ha, hb⟩
    exact hne ((h1.mp ha).symm.trans (h2.mp hb))
  · constructor
    · rintro (⟨ha, -⟩ | ⟨-, hb⟩)
      · exact Or.inl (h1.mp ha)
      · exact Or.inr (h2.mp hb)
    · rintro (ho | hm)
      · refine Or.inl ⟨h1.mpr ho, ?_⟩
        cases hb : pr.IsMerged with
        | false => rfl
        | true => exact absurd (ho.symm.trans (h2.mp hb)) hne
      · refine Or.inr ⟨?_, h2.mpr hm⟩
        cases ha : pr.CanReassign with
        | false => rfl
        | true => exact absurd ((h1.mp ha).symm.trans hm) hne

/-! ## The random choice of `ReassignReviewer` -/

theorem reassignCandidates_iff (cands : List User) (pr : PullRequest) (old : String)
    (u : User) :
    u ∈ reassignCandidates cands pr old
      ↔ (u ∈ cands ∧ u.IsActive = true ∧ u.ID ≠ old ∧ u.ID ∉ pr.ReviewersIDs) := by
  unfold reassignCandidates
  rw [List.mem_filter]
  simp [User.CanBeReviewer]
  tauto

theorem reassignCandidates_ids_nodup (cands : List User) (pr : PullRequest) (old : String)
    (hd : cands.Pairwise (fun a b => a.ID ≠ b.ID)) :
    ((reassignCandidates cands pr old).map (fun u => u.ID)).Nodup := by
  have hnd : (cands.map (fun u => u.ID)).Nodup := by
    rw [List.Nodup, List.pairwise_map]
    exact hd
  exact List.Nodup.sublist ((List.filter_sublist cands).map _) hnd

/-- In a list without duplicates every element sits at exactly one index. -/
theorem existsUnique_index_of_nodup {α : Type} (l : List α) (hnd : l.Nodup) (a : α)
    (ha : a ∈ l) : ∃! k : Nat, k < l.length ∧ l[k]? = some a := by
  obtain ⟨k, hk⟩ := List.mem_iff_getElem?.mp ha
  have hlt : k < l.length := (List.getElem?_eq_some.mp hk).1
  refine ⟨k, ⟨hlt, hk⟩, ?_⟩
  rintro j ⟨hj, hja⟩
  exact (List.getElem?_inj hlt hnd (hk.trans hja.symm)).symm

/-- C23: in `ReassignReviewer` on an OPEN pull request that lists the old
reviewer, with the store returning users of pairwise distinct ids and a pool of
`n >= 1` candidates, the index `k = rnd 0 % n` lies in `[0, n)`, the call passes
to `Update` the pull request with the pool element at index `k` as new reviewer
and returns that element's id whenever it succeeds; the pool lists the eligible
candidates (returned, active, not the old reviewer, not yet assigned) in store
order, each exactly once, so every eligible candidate is chosen by exactly one
index `k < n`, and every index `k < n` is drawn by some random source. -/
theorem ReassignReviewer_picks_pool_element {σ : Type} (S : Stores σ) (rnd : Nat → Nat)
    (st : σ) (prID oldReviewerID : String) (pr : PullRequest) (oldReviewer : User)
    (cands : List User)
    (hget : S.prGetByID st prID = (some pr, none))
    (hopen : pr.Status = PullRequestStatusOpen)
    (hmem : oldReviewerID ∈ pr.ReviewersIDs)
    (hU : S.userGetByID st oldReviewerID = (some oldReviewer, none))
    (hC : S.userGetActiveByTeamName st oldReviewer.TeamName = (cands, none))
    (hd : cands.Pairwise (fun a b => a.ID ≠ b.ID))
    (hn : 1 ≤ (reassignCandidates cands pr oldReviewerID).length) :
    rnd 0 % (reassignCandidates cands pr oldReviewerID).length
        < (reassignCandidates cands pr oldReviewerID).length
      ∧ (∃ chosen : User,
          (reassignCandidates cands pr oldReviewerID)[rnd 0 %
              (reassignCandidates cands pr oldReviewerID).length]? = some chosen
            ∧ (ReassignReviewer S rnd st prID oldReviewerID).calls.filter Call.isPRUpdate
                = [Call.prUpdate { pr with
                    ReviewersIDs := replaceFirst oldReviewerID chosen.ID pr.ReviewersIDs }]
            ∧ (∀ updated newID,
                (ReassignReviewer S rnd st prID oldReviewerID).result = .ok (updated, newID) →
                newID = chosen.ID)
            ∧ ((S.prUpdate st { pr with
                    ReviewersIDs := replaceFirst oldReviewerID chosen.ID pr.ReviewersIDs }).1
                  = none →
                ∃ updated, (ReassignReviewer S rnd st prID oldReviewerID).result
                  = .ok (updated, chosen.ID)))
      ∧ (reassignCandidates cands pr oldReviewerID).Sublist cands
      ∧ (∀ u : User, u ∈ reassignCandidates cands pr oldReviewerID
          ↔ (u ∈ cands ∧ u.IsActive = true ∧ u.ID ≠ oldReviewerID
              ∧ u.ID ∉ pr.ReviewersIDs))
      ∧ ((reassignCandidates cands pr oldReviewerID).map (fun u => u.ID)).Nodup
      ∧ (∀ u : User, u ∈ reassignCandidates cands pr oldReviewerID →
          ∃! k : Nat, k < (reassignCandidates cands pr oldReviewerID).length
            ∧ (reassignCandidates cands pr oldReviewerID)[k]? = some u)
      ∧ (∀ k : Nat, k < (reassignCandidates cands pr oldReviewerID).length →
          ∃ rnd1 : Nat → Nat,
            rnd1 0 % (reassignCandidates cands pr oldReviewerID).length = k) := by
  have hpos : 0 < (reassignCandidates cands pr oldReviewerID).length := hn
  have hlt := Nat.mod_lt (rnd 0) hpos
  have hcan : pr.CanReassign = true := by simp [PullRequest.CanReassign, hopen]
  have hh : pr.HasReviewer oldReviewerID = true := (HasReviewer_iff_mem _ _).mpr hmem
  have hids := reassignCandidates_ids_nodup cands pr oldReviewerID hd
  have hlen0 : (reassignCandidates cands pr oldReviewerID).length ≠ 0 := by omega
  obtain ⟨chosen, hchosen⟩ : ∃ chosen,
      (reassignCandidates cands pr oldReviewerID)[rnd 0 %
        (reassignCandidates cands pr oldReviewerID).length]? = some chosen :=
    ⟨_, List.getElem?_eq_getElem hlt⟩
  refine ⟨hlt, ⟨chosen, hchosen, ?_, ?_, ?_⟩, List.filter_sublist cands,
    reassignCandidates_iff cands pr oldReviewerID, hids, ?_, ?_⟩
  · rcases hu : S.prUpdate st { pr with
        ReviewersIDs := replaceFirst oldReviewerID chosen.ID pr.ReviewersIDs } with ⟨e, st1⟩
    cases e <;>
      simp [ReassignReviewer, hget, hcan, hh, hU, hC, hlen0, hchosen, hu, Call.isPRUpdate]
  · intro updated newID hok
    obtain ⟨pr0, oldReviewer0, cands0, newReviewer, st1, hG, -, -, hU0, hC0, hN, hnew, -, -,
      -, -⟩ := ReassignReviewer_ok_inv S rnd st prID oldReviewerID updated newID hok
    rw [hget] at hG
    obtain rfl : pr = pr0 := by simpa using hG
    rw [hU] at hU0
    obtain rfl : oldReviewer = oldReviewer0 := by simpa using hU0
    rw [hC] at hC0
    obtain rfl : cands = cands0 := by simpa using hC0
    rw [hchosen] at hN
    obtain rfl : chosen = newReviewer := by simpa using hN
    exact hnew
  · intro hnone
    exact ⟨_, ReassignReviewer_ok_of S rnd st _ prID oldReviewerID pr oldReviewer chosen cands
      hget hcan hh hU hC hchosen (Prod.ext hnone rfl)⟩
  · intro u hu
    exact existsUnique_index_of_nodup _ (List.Nodup.of_map _ hids) u hu
  · intro k hk
    exact ⟨fun _ => k, Nat.mod_eq_of_lt hk⟩

theorem ReassignReviewer_picks_pool_element_witness :
    memStores.prGetByID backend4WithPR "pr-1" = (some pr1, none)
      ∧ pr1.Status = PullRequestStatusOpen
      ∧ "u3" ∈ pr1.ReviewersIDs
      ∧ memStores.userGetByID backend4WithPR "u3" = (some charlie, none)
      ∧ memStores.userGetActiveByTeamName backend4WithPR charlie.TeamName
          = ([alice, bob, charlie, david], none)
      ∧ [alice, bob, charlie, david].Pairwise (fun a b => a.ID ≠ b.ID)
      ∧ reassignCandidates [alice, bob, charlie, david] pr1 "u3" = [alice, david]
      ∧ oneRnd 0 % (reassignCandidates [alice, bob, charlie, david] pr1 "u3").length
          < (reassignCandidates [alice, bob, charlie, david] pr1 "u3").length
      ∧ (∀ u : User, u ∈ reassignCandidates [alice, bob, charlie, david] pr1 "u3" →
          ∃! k : Nat, k < (reassignCandidates [alice, bob, charlie, david] pr1 "u3").length
            ∧ (reassignCandidates [alice, bob, charlie, david] pr1 "u3")[k]? = some u) :=
  ⟨by decide, by decide, by decide, by decide, by decide, by decide, by decide,
    (ReassignReviewer_picks_pool_element memStores oneRnd backend4WithPR "pr-1" "u3" pr1
      charlie [alice, bob, charlie, david] (by decide) (by decide) (by decide) (by decide)
      (by decide) (by decide) (by decide)).1,
    (ReassignReviewer_picks_pool_element memStores oneRnd backend4WithPR "pr-1" "u3" pr1
      charlie [alice, bob, charlie, david] (by decide) (by decide) (by decide) (by decide)
      (by decide) (by decide) (by decide)).2.2.2.2.2.1⟩

/-! ## Claims about the handlers of http.go -/

theorem serviceErrorResponse_unmapped (mapped : String → Nat) (e : Err)
    (h : (mapErrorToCode e).2 = false) :
    serviceErrorResponse mapped e
      = writeError StatusInternalServerError "INTERNAL_ERROR" e.Error := by
  unfold serviceErrorResponse
  rcases hm : mapErrorToCode e with ⟨code, ok⟩
  rw [hm] at h
  simp only at h
  subst h
  rfl

/-- C24: when the service call fails with the named domain error, the handler
answers with the fixed status and the error's code (and the error's text):
`CreateTeamHandler` answers `TeamExists` with 400 TEAM_EXISTS; `CreatePRHandler`
answers `PRExists` with 409 PR_EXISTS and `NotFound` with 404 NOT_FOUND;
`MergePRHandler` answers `NotFound` with 404 NOT_FOUND; `ReassignReviewerHandler`
answers `PRMerged`, `NotAssigned` and `NoCandidate` with 409 and their codes and
`NotFound` with 404 NOT_FOUND. -/
theorem handlers_answer_domain_errors {σ : Type} (S : Stores σ) (rnd : Nat → Nat) (st : σ) :
    (∀ (dto : TeamDTO) (team : Team), teamFromDTO dto = .ok team →
        (CreateTeam S st team.Name team.Members).result = .fail .TeamExists →
        (CreateTeamHandler S st (.ok dto)).response
          = some ⟨400, .error "TEAM_EXISTS" "team already exists"⟩)
      ∧ (∀ req : CreatePRDTO,
          (CreatePR S rnd st req.PullRequestID req.PullRequestName req.AuthorID).result
              = .fail .PRExists →
          (CreatePRHandler S rnd st (.ok req)).response
            = some ⟨409, .error "PR_EXISTS" "PR already exists"⟩)
      ∧ (∀ req : CreatePRDTO,
          (CreatePR S rnd st req.PullRequestID req.PullRequestName req.AuthorID).result
              = .fail .NotFound →
          (CreatePRHandler S rnd st (.ok req)).response
            = some ⟨404, .error "NOT_FOUND" "resource not found"⟩)
      ∧ (∀ req : MergePRDTO,
          (MergePR S st req.PullRequestID).result = .fail .NotFound →
          (MergePRHandler S st (.ok req)).response
            = some ⟨404, .error "NOT_FOUND" "resource not found"⟩)
      ∧ (∀ req : ReassignReviewerDTO,
          (ReassignReviewer S rnd st req.PullRequestID req.OldUserID).result
              = .fail .PRMerged →
          (ReassignReviewerHandler S rnd st (.ok req)).response
            = some ⟨409, .error "PR_MERGED" "cannot modify merged PR"⟩)
      ∧ (∀ req : ReassignReviewerDTO,
          (ReassignReviewer S rnd st req.PullRequestID req.OldUserID).result
              = .fail .NotAssigned →
          (ReassignReviewerHandler S rnd st (.ok req)).response
            = some ⟨409, .error "NOT_ASSIGNED" "reviewer is not assigned"⟩)
      ∧ (∀ req : ReassignReviewerDTO,
          (ReassignReviewer S rnd st req.PullRequestID req.OldUserID).result
              = .fail .NoCandidate →
          (ReassignReviewerHandler S rnd st (.ok req)).response
            = some ⟨409, .error "NO_CANDIDATE" "no active candidate available"⟩)
      ∧ (∀ req : ReassignReviewerDTO,
          (ReassignReviewer S rnd st req.PullRequestID req.OldUserID).result
              = .fail .NotFound →
          (ReassignReviewerHandler S rnd st (.ok req)).response
            = some ⟨404, .error "NOT_FOUND" "resource not found"⟩) := by
  refine ⟨?_, ?_, ?_, ?_, ?_, ?_, ?_, ?_⟩
  · intro dto team hdto hres
    simp only [CreateTeamHandler, hdto, hres]
    rfl
  · intro req hres
    simp only [CreatePRHandler, hres]
    rfl
  · intro req hres
    simp only [CreatePRHandler, hres]
    rfl
  · intro req hres
    simp only [MergePRHandler, hres]
    rfl
  · intro req hres
    simp only [ReassignReviewerHandler, hres]
    rfl
  · intro req hres
    simp only [ReassignReviewerHandler, hres]
    rfl
  · intro req hres
    simp only [ReassignReviewerHandler, hres]
    rfl
  · intro req hres
    simp only [ReassignReviewerHandler, hres]
    rfl

theorem handlers_answer_domain_errors_witness :
    (teamFromDTO { TeamName := "backend", Members := [] }
          = .ok { Name := "backend", Members := [] }
        ∧ (CreateTeam memStores backend3 "backend" []).result = .fail .TeamExists
        ∧ (CreateTeamHandler memStores backend3
              (.ok { TeamName := "backend", Members := [] })).response
            = some ⟨400, .error "TEAM_EXISTS" "team already exists"⟩)
      ∧ ((CreatePR memStores zeroRnd backend3WithPR "pr-1" "Again" "u1").result
            = .fail .PRExists
        ∧ (CreatePRHandler memStores zeroRnd backend3WithPR
              (.ok { PullRequestID := "pr-1", PullRequestName := "Again",
                     AuthorID := "u1" })).response
            = some ⟨409, .error "PR_EXISTS" "PR already exists"⟩)
      ∧ ((CreatePR memStores zeroRnd backend3 "pr-1" "Add feature" "nobody").result
            = .fail .NotFound
        ∧ (CreatePRHandler memStores zeroRnd backend3
              (.ok { PullRequestID := "pr-1", PullRequestName := "Add feature",
                     AuthorID := "nobody" })).response
            = some ⟨404, .error "NOT_FOUND" "resource not found"⟩)
      ∧ ((MergePR memStores backend3 "pr-9").result = .fail .NotFound
        ∧ (MergePRHandler memStores backend3 (.ok { PullRequestID := "pr-9" })).response
            = some ⟨404, .error "NOT_FOUND" "resource not found"⟩)
      ∧ ((ReassignReviewer memStores zeroRnd backend3Merged "pr-1" "u2").result
            = .fail .PRMerged
        ∧ (ReassignReviewerHandler memStores zeroRnd backend3Merged
              (.ok { PullRequestID := "pr-1", OldUserID := "u2" })).response
            = some ⟨409, .error "PR_MERGED" "cannot modify merged PR"⟩)
      ∧ ((ReassignReviewer memStores zeroRnd backend4WithPR "pr-1" "u4").result
            = .fail .NotAssigned
        ∧ (ReassignReviewerHandler memStores zeroRnd backend4WithPR
              (.ok { PullRequestID := "pr-1", OldUserID := "u4" })).response
            = some ⟨409, .error "NOT_ASSIGNED" "reviewer is not assigned"⟩)
      ∧ ((ReassignReviewer memStores zeroRnd backendAuthorInactive "pr-1" "u2").result
            = .fail .NoCandidate
        ∧ (ReassignReviewerHandler memStores zeroRnd backendAuthorInactive
              (.ok { PullRequestID := "pr-1", OldUserID := "u2" })).response
            = some ⟨409, .error "NO_CANDIDATE" "no active candidate available"⟩)
      ∧ ((ReassignReviewer memStores zeroRnd backend3 "pr-9" "u2").result = .fail .NotFound
        ∧ (ReassignReviewerHandler memStores zeroRnd backend3
              (.ok { PullRequestID := "pr-9", OldUserID := "u2" })).response
            = some ⟨404, .error "NOT_FOUND" "resource not found"⟩) :=
  ⟨⟨rfl, by decide,
      (handlers_answer_domain_errors memStores zeroRnd backend3).1
        { TeamName := "backend", Members := [] } { Name := "backend", Members := [] } rfl
        (by decide)⟩,
    ⟨by decide,
      (handlers_answer_domain_errors memStores zeroRnd backend3WithPR).2.1
        { PullRequestID := "pr-1", PullRequestName := "Again", AuthorID := "u1" }
        (by decide)⟩,
    ⟨by decide,
      (handlers_answer_domain_errors memStores zeroRnd backend3).2.2.1
        { PullRequestID := "pr-1", PullRequestName := "Add feature", AuthorID := "nobody" }
        (by decide)⟩,
    ⟨by decide,
      (handlers_answer_domain_errors memStores zeroRnd backend3).2.2.2.1
        { PullRequestID := "pr-9" } (by decide)⟩,
    ⟨by decide,
      (handlers_answer_domain_errors memStores zeroRnd backend3Merged).2.2.2.2.1
        { PullRequestID := "pr-1", OldUserID := "u2" } (by decide)⟩,
    ⟨by decide,
      (handlers_answer_domain_errors memStores zeroRnd backend4WithPR).2.2.2.2.2.1
        { PullRequestID := "pr-1", OldUserID := "u4" } (by decide)⟩,
    ⟨by decide,
      (handlers_answer_domain_errors memStores zeroRnd backendAuthorInactive).2.2.2.2.2.2.1
        { PullRequestID := "pr-1", OldUserID := "u2" } (by decide)⟩,
    ⟨by decide,
      (handlers_answer_domain_errors memStores zeroRnd backend3).2.2.2.2.2.2.2
        { PullRequestID := "pr-9", OldUserID := "u2" } (by decide)⟩⟩

/-- C25: for every handler, when its service call fails with an error that
`mapErrorToCode` does not map, the response has status 500 and the error code
INTERNAL_ERROR (with the error's text); in `CreateTeamHandler` this holds for
both service calls, `CreateTeam` and the `GetTeam` that follows a success. -/
theorem handlers_answer_unmapped_errors {σ : Type} (S : Stores σ) (rnd : Nat → Nat) (st : σ)
    (e : Err) (hun : (mapErrorToCode e).2 = false) :
    (∀ (dto : TeamDTO) (team : Team), teamFromDTO dto = .ok team →
        (CreateTeam S st team.Name team.Members).result = .fail e →
        (CreateTeamHandler S st (.ok dto)).response
          = some ⟨500, .error "INTERNAL_ERROR" e.Error⟩)
      ∧ (∀ (dto : TeamDTO) (team : Team), teamFromDTO dto = .ok team →
          (CreateTeam S st team.Name team.Members).result = .ok () →
          (GetTeam S (CreateTeam S st team.Name team.Members).state team.Name).result
              = .fail e →
          (CreateTeamHandler S st (.ok dto)).response
            = some ⟨500, .error "INTERNAL_ERROR" e.Error⟩)
      ∧ (∀ teamName : String, teamName ≠ "" →
          (GetTeam S st teamName).result = .fail e →
          (GetTeamHandler S st teamName).response
            = some ⟨500, .error "INTERNAL_ERROR" e.Error⟩)
      ∧ (∀ req : SetUserActiveDTO,
          (SetUserActive S st req.UserID req.IsActive).result = .fail e →
          (SetUserActiveHandler S st (.ok req)).response
            = some ⟨500, .error "INTERNAL_ERROR" e.Error⟩)
      ∧ (∀ req : CreatePRDTO,
          (CreatePR S rnd st req.PullRequestID req.PullRequestName req.AuthorID).result
              = .fail e →
          (CreatePRHandler S rnd st (.ok req)).response
            = some ⟨500, .error "INTERNAL_ERROR" e.Error⟩)
      ∧ (∀ req : MergePRDTO,
          (MergePR S st req.PullRequestID).result = .fail e →
          (MergePRHandler S st (.ok req)).response
            = some ⟨500, .error "INTERNAL_ERROR" e.Error⟩)
      ∧ (∀ req : ReassignReviewerDTO,
          (ReassignReviewer S rnd st req.PullRequestID req.OldUserID).result = .fail e →
          (ReassignReviewerHandler S rnd st (.ok req)).response
            = some ⟨500, .error "INTERNAL_ERROR" e.Error⟩)
      ∧ (∀ userID : String, userID ≠ "" →
          (GetUserReviews S st userID).result = .fail e →
          (GetUserReviewsHandler S st userID).response
            = some ⟨500, .error "INTERNAL_ERROR" e.Error⟩)
      ∧ ((GetStatistics S st).result = .fail e →
          (GetStatisticsHandler S st).response
            = some ⟨500, .error "INTERNAL_ERROR" e.Error⟩) := by
  refine ⟨?_, ?_, ?_, ?_, ?_, ?_, ?_, ?_, ?_⟩
  · intro dto team hdto hres
    simp only [CreateTeamHandler, hdto, hres, serviceErrorResponse_unmapped _ e hun]
    rfl
  · intro dto team hdto hres hget
    simp only [CreateTeamHandler, hdto, hres, hget]
    rfl
  · intro teamName hne hres
    simp only [GetTeamHandler, hres, serviceErrorResponse_unmapped _ e hun]
    simp [hne, writeError, StatusInternalServerError]
  · intro req hres
    simp only [SetUserActiveHandler, hres, serviceErrorResponse_unmapped _ e hun]
    rfl
  · intro req hres
    simp only [CreatePRHandler, hres, serviceErrorResponse_unmapped _ e hun]
    rfl
  · intro req hres
    simp only [MergePRHandler, hres, serviceErrorResponse_unmapped _ e hun]
    rfl
  · intro req hres
    simp only [ReassignReviewerHandler, hres, serviceErrorResponse_unmapped _ e hun]
    rfl
  · intro userID hne hres
    simp only [GetUserReviewsHandler, hres, serviceErrorResponse_unmapped _ e hun]
    simp [hne, writeError, StatusInternalServerError]
  · intro hres
    simp only [GetStatisticsHandler, hres]
    rfl

theorem handlers_answer_unmapped_errors_witness :
    (mapErrorToCode (.storage "connection refused")).2 = false
      ∧ ((CreateTeam storesDown backend3 "frontend"
              [{ ID := "u7", Username := "Grace", TeamName := "frontend",
                 IsActive := true }]).result
            = .fail (.storage "connection refused")
        ∧ (CreateTeamHandler storesDown backend3
              (.ok { TeamName := "frontend",
                     Members := [{ UserID := "u7", Username := "Grace",
                                   IsActive := true }] })).response
            = some ⟨500, .error "INTERNAL_ERROR" "connection refused"⟩)
      ∧ ((GetTeam teamReadBackDown
              (CreateTeam teamReadBackDown backend3 "frontend"
                [{ ID := "u7", Username := "Grace", TeamName := "frontend",
                   IsActive := true }]).state "frontend").result
            = .fail (.storage "connection refused")
        ∧ (CreateTeamHandler teamReadBackDown backend3
              (.ok { TeamName := "frontend",
                     Members := [{ UserID := "u7", Username := "Grace",
                                   IsActive := true }] })).response
            = some ⟨500, .error "INTERNAL_ERROR" "connection refused"⟩)
      ∧ (GetTeamHandler storesDown backend3 "backend").response
          = some ⟨500, .error "INTERNAL_ERROR" "connection refused"⟩
      ∧ (SetUserActiveHandler storesDown backend3
            (.ok { UserID := "u2", IsActive := false })).response
          = some ⟨500, .error "INTERNAL_ERROR" "connection refused"⟩
      ∧ (CreatePRHandler storesDown zeroRnd backend3
            (.ok { PullRequestID := "pr-1", PullRequestName := "Add feature",
                   AuthorID := "u1" })).response
          = some ⟨500, .error "INTERNAL_ERROR" "connection refused"⟩
      ∧ (MergePRHandler storesDown backend3 (.ok { PullRequestID := "pr-1" })).response
          = some ⟨500, .error "INTERNAL_ERROR" "connection refused"⟩
      ∧ (ReassignReviewerHandler storesDown zeroRnd backend3
            (.ok { PullRequestID := "pr-1", OldUserID := "u2" })).response
          = some ⟨500, .error "INTERNAL_ERROR" "connection refused"⟩
      ∧ (GetUserReviewsHandler storesDown backend3 "u2").response
          = some ⟨500, .error "INTERNAL_ERROR" "connection refused"⟩
      ∧ (GetStatisticsHandler storesDown backend3).response
          = some ⟨500, .error "INTERNAL_ERROR" "connection refused"⟩ :=
  ⟨by decide,
    ⟨by decide,
      (handlers_answer_unmapped_errors storesDown zeroRnd backend3
        (.storage "connection refused") (by decide)).1
        { TeamName := "frontend",
          Members := [{ UserID := "u7", Username := "Grace", IsActive := true }] }
        { Name := "frontend",
          Members := [{ ID := "u7", Username := "Grace", TeamName := "frontend",
                        IsActive := true }] } rfl (by decide)⟩,
    ⟨by decide,
      (handlers_answer_unmapped_errors teamReadBackDown zeroRnd backend3
        (.storage "connection refused") (by decide)).2.1
        { TeamName := "frontend",
          Members := [{ UserID := "u7", Username := "Grace", IsActive := true }] }
        { Name := "frontend",
          Members := [{ ID := "u7", Username := "Grace", TeamName := "frontend",
                        IsActive := true }] } rfl (by decide) (by decide)⟩,
    (handlers_answer_unmapped_errors storesDown zeroRnd backend3
      (.storage "connection refused") (by decide)).2.2.1 "backend" (by decide) (by decide),
    (handlers_answer_unmapped_errors storesDown zeroRnd backend3
      (.storage "connection refused") (by decide)).2.2.2.1
      { UserID := "u2", IsActive := false } (by decide),
    (handlers_answer_unmapped_errors storesDown zeroRnd backend3
      (.storage "connection refused") (by decide)).2.2.2.2.1
      { PullRequestID := "pr-1", PullRequestName := "Add feature", AuthorID := "u1" }
      (by decide),
    (handlers_answer_unmapped_errors storesDown zeroRnd backend3
      (.storage "connection refused") (by decide)).2.2.2.2.2.1
      { PullRequestID := "pr-1" } (by decide),
    (handlers_answer_unmapped_errors storesDown zeroRnd backend3
      (.storage "connection refused") (by decide)).2.2.2.2.2.2.1
      { PullRequestID := "pr-1", OldUserID := "u2" } (by decide),
    (handlers_answer_unmapped_errors storesDown zeroRnd backend3
      (.storage "connection refused") (by decide)).2.2.2.2.2.2.2.1 "u2" (by decide)
      (by decide),
    (handlers_answer_unmapped_errors storesDown zeroRnd backend3
      (.storage "connection refused") (by decide)).2.2.2.2.2.2.2.2 (by decide)⟩

/-! ## Claims about `teamFromDTO` and `teamToDTO` -/

/-- The member loop of `teamFromDTO` either finds every member valid and
returns the converted members in order, or finds an invalid member and fails. -/
theorem membersFromDTO_cases (teamName : String) :
    ∀ (members : List TeamMemberDTO) (i : Nat),
      ((∀ m ∈ members, m.UserID ≠ "" ∧ m.Username ≠ "")
          ∧ membersFromDTO teamName i members
              = .ok (members.map (fun m =>
                  { ID := m.UserID, Username := m.Username, TeamName := teamName,
                    IsActive := m.IsActive })))
        ∨ ((∃ m ∈ members, m.UserID = "" ∨ m.Username = "")
            ∧ ∃ e, membersFromDTO teamName i members = .error e) := by
  intro members
  induction members with
  | nil => intro i; exact Or.inl ⟨by simp, rfl⟩
  | cons m rest ih =>
    intro i
    by_cases hm : m.UserID = "" ∨ m.Username = ""
    · refine Or.inr ⟨⟨m, by simp, hm⟩, ?_⟩
      have hb : (m.UserID == "" || m.Username == "") = true := by
        simpa using hm
      exact ⟨.wrap (MapperErr.InvalidMemberDTO.Error ++ ": member at index " ++ toString i)
        .InvalidMemberDTO, by simp only [membersFromDTO, hb, if_true]⟩
    · have hb : (m.UserID == "" || m.Username == "") = false := by
        simpa using hm
      have hm1 : m.UserID ≠ "" ∧ m.Username ≠ "" := by
        constructor
        · exact fun h => hm (Or.inl h)
        · exact fun h => hm (Or.inr h)
      rcases ih (i + 1) with ⟨hall, hok⟩ | ⟨⟨x, hx, hbad⟩, e, herr⟩
      · refine Or.inl ⟨?_, ?_⟩
        · intro y hy
          rcases List.mem_cons.mp hy with h | h
          · rw [h]; exact hm1
          · exact hall y h
        · simp only [membersFromDTO, hb, hok, List.map_cons]
          rfl
      · refine Or.inr ⟨⟨x, List.mem_cons_of_mem _ hx, hbad⟩, e, ?_⟩
        simp only [membersFromDTO, hb, herr]
        rfl

/-- What `teamFromDTO` returns when it succeeds. -/
theorem teamFromDTO_ok_inv (dto : TeamDTO) (team : Team) (h : teamFromDTO dto = .ok team) :
    dto.TeamName ≠ ""
      ∧ team = { Name := dto.TeamName,
                 Members := dto.Members.map (fun m =>
                   { ID := m.UserID, Username := m.Username, TeamName := dto.TeamName,
                     IsActive := m.IsActive }) } := by
  by_cases hname : dto.TeamName = ""
  · simp [teamFromDTO, hname] at h
  · have hb : (dto.TeamName == "") = false := by simpa using hname
    rcases membersFromDTO_cases dto.TeamName dto.Members 0 with
      ⟨-, hok⟩ | ⟨-, e, herr⟩
    · simp only [teamFromDTO, hb, hok] at h
      exact ⟨hname, (Except.ok.inj h).symm⟩
    · simp only [teamFromDTO, hb, herr] at h
      cases h

/-- C26: `teamFromDTO` fails if and only if `team_name` is empty or some member
has an empty `user_id` or `username`; on success the team's name is `team_name`
and is not empty, its members are the DTO members converted one by one in the
same order (same id, username and active flag), and every member's `TeamName`
is the team's name. -/
theorem teamFromDTO_spec (dto : TeamDTO) :
    ((∃ e, teamFromDTO dto = .error e)
        ↔ (dto.TeamName = "" ∨ ∃ m ∈ dto.Members, m.UserID = "" ∨ m.Username = ""))
      ∧ (∀ team, teamFromDTO dto = .ok team →
          team.Name = dto.TeamName ∧ team.Name ≠ ""
            ∧ team.Members = dto.Members.map (fun m =>
                { ID := m.UserID, Username := m.Username, TeamName := dto.TeamName,
                  IsActive := m.IsActive })
            ∧ team.Members.length = dto.Members.length
            ∧ (∀ (i : Nat) (m : TeamMemberDTO), dto.Members[i]? = some m →
                ∃ u, team.Members[i]? = some u ∧ u.ID = m.UserID
                  ∧ u.Username = m.Username ∧ u.IsActive = m.IsActive)
            ∧ (∀ u ∈ team.Members, u.TeamName = team.Name)) := by
  by_cases hname : dto.TeamName = ""
  · have herr : teamFromDTO dto = .error .InvalidTeamDTO := by
      simp [teamFromDTO, hname]
    refine ⟨⟨fun _ => Or.inl hname, fun _ => ⟨_, herr⟩⟩, ?_⟩
    intro team hok
    rw [herr] at hok
    cases hok
  · have hb : (dto.TeamName == "") = false := by simpa using hname
    rcases membersFromDTO_cases dto.TeamName dto.Members 0 with
      ⟨hall, hok⟩ | ⟨⟨x, hx, hbad⟩, e, herr⟩
    · have hres : teamFromDTO dto
          = .ok { Name := dto.TeamName,
                  Members := dto.Members.map (fun m =>
                    { ID := m.UserID, Username := m.Username, TeamName := dto.TeamName,
                      IsActive := m.IsActive }) } := by
        simp only [teamFromDTO, hb, hok]
        rfl
      constructor
      · constructor
        · rintro ⟨e, he⟩
          rw [hres] at he
          cases he
        · rintro (h | ⟨m, hm, hbad⟩)
          · exact absurd h hname
          · rcases hbad with h | h
            · exact absurd h (hall m hm).1
            · exact absurd h (hall m hm).2
      · intro team hteam
        rw [hres] at hteam
        obtain rfl : _ = team := Except.ok.inj hteam
        refine ⟨rfl, hname, rfl, by simp, ?_, ?_⟩
        · intro i m hi
          exact ⟨{ ID := m.UserID, Username := m.Username, TeamName := dto.TeamName,
                   IsActive := m.IsActive },
            by simp [List.getElem?_map, hi], rfl, rfl, rfl⟩
        · intro u hu
          simp only [List.mem_map] at hu
          obtain ⟨m, -, rfl⟩ := hu
          rfl
    · have hres : teamFromDTO dto = .error e := by
        simp only [teamFromDTO, hb, herr]
        rfl
      refine ⟨⟨fun _ => Or.inr ⟨x, hx, hbad⟩, fun _ => ⟨e, hres⟩⟩, ?_⟩
      intro team hteam
      rw [hres] at hteam
      cases hteam

theorem teamFromDTO_spec_witness :
    (∃ e, teamFromDTO { TeamName := "", Members := [] } = .error e)
      ∧ (∃ e, teamFromDTO
            { TeamName := "backend",
              Members := [{ UserID := "u1", Username := "", IsActive := true }] }
          = .error e)
      ∧ teamFromDTO testTeamDTO = .ok testTeam
      ∧ (testTeam.Name = testTeamDTO.TeamName ∧ testTeam.Name ≠ ""
          ∧ testTeam.Members = testTeamDTO.Members.map (fun m =>
              { ID := m.UserID, Username := m.Username, TeamName := testTeamDTO.TeamName,
                IsActive := m.IsActive })
          ∧ testTeam.Members.length = testTeamDTO.Members.length
          ∧ (∀ (i : Nat) (m : TeamMemberDTO), testTeamDTO.Members[i]? = some m →
              ∃ u, testTeam.Members[i]? = some u ∧ u.ID = m.UserID
                ∧ u.Username = m.Username ∧ u.IsActive = m.IsActive)
          ∧ (∀ u ∈ testTeam.Members, u.TeamName = testTeam.Name)) :=
  ⟨(teamFromDTO_spec { TeamName := "", Members := [] }).1.mpr (Or.inl rfl),
    (teamFromDTO_spec
      { TeamName := "backend",
        Members := [{ UserID := "u1", Username := "", IsActive := true }] }).1.mpr
      (Or.inr ⟨{ UserID := "u1", Username := "", IsActive := true }, by simp, Or.inr rfl⟩),
    rfl, (teamFromDTO_spec testTeamDTO).2 testTeam rfl⟩

/-- C27: for every TeamDTO that `teamFromDTO` accepts, `teamToDTO` applied to
the resulting team succeeds and returns the DTO itself: the same `team_name`
and the same members in the same order. -/
theorem teamToDTO_undoes_teamFromDTO (dto : TeamDTO) (team : Team)
    (h : teamFromDTO dto = .ok team) :
    teamToDTO (some team) = .ok dto
      ∧ ∃ back, teamToDTO (some team) = .ok back ∧ back.TeamName = dto.TeamName
          ∧ back.Members = dto.Members := by
  obtain ⟨hne, rfl⟩ := teamFromDTO_ok_inv dto team h
  have hb : (dto.TeamName == "") = false := by simpa using hne
  have hback : teamToDTO (some
      { Name := dto.TeamName,
        Members := dto.Members.map (fun m =>
          ({ ID := m.UserID, Username := m.Username, TeamName := dto.TeamName,
             IsActive := m.IsActive } : User)) }) = .ok dto := by
    simp only [teamToDTO, hb, List.map_map]
    have hid : ((fun member : User =>
          ({ UserID := member.ID, Username := member.Username,
             IsActive := member.IsActive } : TeamMemberDTO))
        ∘ fun m : TeamMemberDTO =>
          ({ ID := m.UserID, Username := m.Username, TeamName := dto.TeamName,
             IsActive := m.IsActive } : User)) = id := by
      funext m
      rfl
    rw [hid, List.map_id]
    rfl
  exact ⟨hback, dto, hback, rfl, rfl⟩

theorem teamToDTO_undoes_teamFromDTO_witness :
    teamFromDTO testTeamDTO = .ok testTeam
      ∧ teamToDTO (some testTeam) = .ok testTeamDTO
      ∧ ∃ back, teamToDTO (some testTeam) = .ok back
          ∧ back.TeamName = testTeamDTO.TeamName ∧ back.Members = testTeamDTO.Members :=
  ⟨rfl, teamToDTO_undoes_teamFromDTO testTeamDTO testTeam rfl⟩

/-! ## `CreatePRHandler` after a successful creation -/

/-- C28 (the code at the failing input): for the request body with
`pull_request_id` "pr-1", an empty `pull_request_name` and author u1, on the
team u1, u2, u3 without pull requests, `CreatePR` succeeds and the PR store
holds the new pull request, `prToDTO` fails on it, and `CreatePRHandler` answers
500 INTERNAL_ERROR, not 201. -/
theorem CreatePRHandler_500_after_creation :
    (CreatePR memStores zeroRnd backend3 "pr-1" "" "u1").result
        = .ok { createdPR with Name := "" }
      ∧ memStores.prGetByID
          (CreatePRHandler memStores zeroRnd backend3 (.ok unnamedPRRequest)).state "pr-1"
          = (some { createdPR with Name := "" }, none)
      ∧ (∃ e, prToDTO (some { createdPR with Name := "" }) = .error e)
      ∧ (CreatePRHandler memStores zeroRnd backend3 (.ok unnamedPRRequest)).response
          = some ⟨500, .error "INTERNAL_ERROR"
              ("invalid pull request: PR is nil or required fields are empty: "
                ++ "pull_request_id, pull_request_name and author_id are required")⟩ := by
  refine ⟨by decide, by decide, ⟨_, rfl⟩, by decide⟩

end PRReviewer
